import Mathlib

/-!
# Verification of the BNC RTCM3 decoder (`RTCM3Decoder.cpp`)

A shallow embedding, in Lean 4, of the RTCM3 decoder of the BNC NTRIP
client as it appears in this repository (`src/c/BNC/RTCM3Decoder.cpp`
and the headers next to it), together with theorems settling the frozen
claims about it.

Conventions used throughout:

* C byte buffers (`unsigned char*`) become `List Nat`; every read of a
  byte goes through `byteAt`, which truncates to 8 bits, exactly the
  guarantee the C type system gives.
* C `double` arithmetic on the decoded quantities is modelled with `ℚ`.
  All quantities the decoder manipulates (scaled bitfields, wavelength
  quotients, sentinel comparisons) are exact decimal/dyadic rationals,
  so `ℚ` reproduces the IEEE computations on the ranges involved here
  where the claims read them.
* The bit-reader macros (`GETBITS`, `GETBITSSIGN`, `GETFLOAT`,
  `SKIPBITS`, …) come from `bits.h`, which is not part of this
  repository snapshot; they are modelled from the spec (§4.1): an
  MSB-first cursor over the payload that fails (the macro does
  `return false`) when a read would run past the end of the message.
-/

set_option maxRecDepth 20000

namespace RTCM3

/-- A byte of a C `unsigned char` buffer: reading index `i` of a
`List Nat`, truncated to 8 bits (out-of-range reads yield 0; the C code
never performs them on the paths modelled here). -/
def byteAt (buf : List Nat) (i : Nat) : Nat :=
  buf.getD i 0 % 256

/-- One byte step of `RTCM3Decoder::CRC24` (RTCM3Decoder.cpp:1855):
`crc ^= byte << 16`, then eight rounds of shift-left and conditional
xor with the polynomial `0x01864cfb`.  `crc` is a C `uint32_t`; the
shift is reduced mod `2^32` exactly as the machine does. -/
def crc24Round (crc : Nat) : Nat :=
  let c := (crc <<< 1) % 4294967296
  if c &&& 0x1000000 ≠ 0 then c ^^^ 0x01864cfb else c

/-- Eight CRC rounds for one input byte. -/
def crc24Byte (crc b : Nat) : Nat :=
  Nat.iterate crc24Round 8 (crc ^^^ (b <<< 16))

/-- `RTCM3Decoder::CRC24(size, buf)`: CRC-24Q with polynomial
`0x1864cfb`, initial value 0, over a list of bytes. -/
def crc24 (bytes : List Nat) : Nat :=
  bytes.foldl crc24Byte 0

/-- The 10-bit block length read by `RTCM3Decoder::GetMessage` at scan
position `m`: `((m[1] & 3) << 8) | m[2]` (RTCM3Decoder.cpp:1880). -/
def blockSizeAt (buf : List Nat) (m : Nat) : Nat :=
  (byteAt buf (m + 1) % 4) * 256 + byteAt buf (m + 2)

/-- The CRC comparison of `GetMessage` (RTCM3Decoder.cpp:1882-1884):
the three bytes following the `L`-byte payload, big-endian, must equal
the CRC-24Q of the `L+3` header+payload bytes starting at `m`. -/
def crcOkAt (buf : List Nat) (m L : Nat) : Bool :=
  byteAt buf (m + 3 + L) * 65536 + byteAt buf (m + 3 + L + 1) * 256 +
      byteAt buf (m + 3 + L + 2) ==
    crc24 (((buf.drop m).take (L + 3)).map (· % 256))

/-- A complete, CRC-valid frame starts at position `m` of `buf`:
leading byte `0xD3`, the whole `L+6`-byte frame inside the buffer, and
a matching CRC.  This is the condition under which `GetMessage` yields
a message at `m`. -/
def validFrameAt (buf : List Nat) (m : Nat) : Bool :=
  byteAt buf m == 0xD3 &&
    (m + blockSizeAt buf m + 6 ≤ buf.length) &&
    crcOkAt buf m (blockSizeAt buf m)

/-- `buf` contains a complete valid frame at some position. -/
def hasValidFrame (buf : List Nat) : Bool :=
  (List.range buf.length).any (validFrameAt buf)

/-- Fuel-bounded version of the framer scan loop of
`RTCM3Decoder::GetMessage` (RTCM3Decoder.cpp:1878-1899); used through
`scanFrom` below, which supplies enough fuel that the bound is never
hit. -/
def scanFromA : Nat → List Nat → Nat → List (List Nat)
  | 0, _, _ => []
  | fuel + 1, buf, m =>
    if buf.length < m + 3 then []
    else if byteAt buf m ≠ 0xD3 then scanFromA fuel buf (m + 1)
    else
      let L := blockSizeAt buf m
      if buf.length < m + L + 6 then []
      else if crcOkAt buf m L then
        ((buf.drop m).take (L + 6)) :: scanFromA fuel buf (m + L + 6)
      else scanFromA fuel buf (m + 1)

/-- The whole-stream run of the framer scan loop of
`RTCM3Decoder::GetMessage` (RTCM3Decoder.cpp:1878-1899) from scan
position `m`, with no further input to come: at each position, a
non-`0xD3` byte or a CRC mismatch advances the scan pointer by one
byte; a complete valid frame is yielded (as its `L+6`-byte slice) and
the scan continues after it; an incomplete frame (`_NeedBytes`) or
fewer than 3 remaining bytes ends the scan. -/
def scanFrom (buf : List Nat) (m : Nat) : List (List Nat) :=
  scanFromA (buf.length + 1 - m) buf m

/-- The fuel argument of `scanFromA` is irrelevant once it covers the
remaining buffer. -/
theorem scanFromA_congr : ∀ (f₁ f₂ : Nat) (buf : List Nat) (m : Nat),
    buf.length + 1 - m ≤ f₁ → buf.length + 1 - m ≤ f₂ →
    scanFromA f₁ buf m = scanFromA f₂ buf m := by
  intro f₁
  induction f₁ with
  | zero =>
    intro f₂ buf m h1 _
    match f₂ with
    | 0 => rfl
    | k + 1 =>
      rw [scanFromA, scanFromA, if_pos (by omega)]
  | succ n ih =>
    intro f₂ buf m h1 h2
    match f₂ with
    | 0 =>
      rw [scanFromA, scanFromA, if_pos (by omega)]
    | k + 1 =>
      rw [scanFromA, scanFromA]
      by_cases h3 : buf.length < m + 3
      · rw [if_pos h3, if_pos h3]
      · rw [if_neg h3, if_neg h3]
        by_cases hd3 : byteAt buf m ≠ 0xD3
        · rw [if_pos hd3, if_pos hd3, ih k buf (m + 1) (by omega) (by omega)]
        · rw [if_neg hd3, if_neg hd3]
          by_cases hcmp : buf.length < m + blockSizeAt buf m + 6
          · rw [if_pos hcmp, if_pos hcmp]
          · rw [if_neg hcmp, if_neg hcmp]
            by_cases hok : crcOkAt buf m (blockSizeAt buf m)
            · rw [if_pos hok, if_pos hok,
                ih k buf (m + blockSizeAt buf m + 6) (by omega) (by omega)]
            · rw [if_neg hok, if_neg hok, ih k buf (m + 1) (by omega) (by omega)]

/-- One-step unfolding of `scanFrom`, mirrorring the loop body of
`GetMessage`. -/
theorem scanFrom_unfold (buf : List Nat) (m : Nat) :
    scanFrom buf m =
      if buf.length < m + 3 then []
      else if byteAt buf m ≠ 0xD3 then scanFrom buf (m + 1)
      else
        let L := blockSizeAt buf m
        if buf.length < m + L + 6 then []
        else if crcOkAt buf m L then
          ((buf.drop m).take (L + 6)) :: scanFrom buf (m + L + 6)
        else scanFrom buf (m + 1) := by
  unfold scanFrom
  by_cases h0 : buf.length + 1 ≤ m
  · rw [show buf.length + 1 - m = 0 by omega, scanFromA, if_pos (by omega)]
  · rw [show buf.length + 1 - m = (buf.length - m) + 1 by omega, scanFromA]
    by_cases h3 : buf.length < m + 3
    · rw [if_pos h3, if_pos h3]
    · rw [if_neg h3, if_neg h3]
      by_cases hd3 : byteAt buf m ≠ 0xD3
      · rw [if_pos hd3, if_pos hd3,
          scanFromA_congr (buf.length - m) (buf.length + 1 - (m + 1)) buf (m + 1)
            (by omega) (by omega)]
      · rw [if_neg hd3, if_neg hd3]
        by_cases hcmp : buf.length < m + blockSizeAt buf m + 6
        · rw [if_pos hcmp, if_pos hcmp]
        · rw [if_neg hcmp, if_neg hcmp]
          by_cases hok : crcOkAt buf m (blockSizeAt buf m)
          · rw [if_pos hok, if_pos hok,
              scanFromA_congr (buf.length - m) (buf.length + 1 - (m + blockSizeAt buf m + 6))
                buf (m + blockSizeAt buf m + 6) (by omega) (by omega)]
          · rw [if_neg hok, if_neg hok,
              scanFromA_congr (buf.length - m) (buf.length + 1 - (m + 1)) buf (m + 1)
                (by omega) (by omega)]

/-- The framer scan advances past position `m` in a single byte step:
either the byte is not `0xD3`, or it heads a complete-in-buffer frame
whose CRC fails.  (The two ways the scanner neither yields nor stops.) -/
abbrev advanceOk (buf : List Nat) (m : Nat) : Prop :=
  byteAt buf m ≠ 0xD3 ∨
    (m + blockSizeAt buf m + 6 ≤ buf.length ∧ crcOkAt buf m (blockSizeAt buf m) = false)

/-- On a CRC mismatch of a complete frame candidate, the scan moves by
exactly one byte: the yielded messages from `m` are those from `m+1`. -/
theorem scanFrom_crc_mismatch (buf : List Nat) (m : Nat)
    (hd3 : byteAt buf m = 0xD3)
    (hcomplete : m + blockSizeAt buf m + 6 ≤ buf.length)
    (hcrc : crcOkAt buf m (blockSizeAt buf m) = false) :
    scanFrom buf m = scanFrom buf (m + 1) := by
  rw [scanFrom_unfold]
  have h3 : ¬ buf.length < m + 3 := by omega
  simp [h3, hd3, hcrc, Nat.not_lt.mpr hcomplete]

/-- If the scanner neither yields nor stops at `m`, it moves to `m+1`,
and when the buffer ends within two bytes of `m` both scans are empty:
either way the yielded messages from `m` are those from `m+1`. -/
theorem scanFrom_step (buf : List Nat) (m : Nat) (hm : advanceOk buf m) :
    scanFrom buf m = scanFrom buf (m + 1) := by
  by_cases h3 : buf.length < m + 3
  · rw [scanFrom_unfold, if_pos h3]
    rw [scanFrom_unfold, if_pos (show buf.length < m + 1 + 3 by omega)]
  · rcases hm with hne | ⟨hcomp, hcrc⟩
    · rw [scanFrom_unfold, if_neg h3, if_pos hne]
    · by_cases hne : byteAt buf m ≠ 0xD3
      · rw [scanFrom_unfold, if_neg h3, if_pos hne]
      · push_neg at hne
        exact scanFrom_crc_mismatch buf m hne hcomp hcrc

/-- Walking the scan through a stretch of positions that each satisfy
`advanceOk` does not change the yielded messages. -/
theorem scanFrom_advance (buf : List Nat) (d : Nat) :
    ∀ m, (∀ j, m ≤ j → j < m + d → advanceOk buf j) →
      scanFrom buf m = scanFrom buf (m + d) := by
  induction d with
  | zero => intro m _; rfl
  | succ n ih =>
    intro m h
    rw [scanFrom_step buf m (h m le_rfl (by omega)),
      ih (m + 1) (fun j hj hjk => h j (by omega) (by omega)),
      show m + 1 + n = m + (n + 1) by omega]

/-- Bytes of `P ++ S` at offset `P.length + i` agree with bytes of `S`
at `i`. -/
theorem byteAt_append (P S : List Nat) (i : Nat) :
    byteAt (P ++ S) (P.length + i) = byteAt S i := by
  unfold byteAt
  rw [List.getD_append_right _ _ _ _ (by omega), Nat.add_sub_cancel_left]

/-- Scanning the suffix of an append from a position past the prefix is
scanning the suffix alone. -/
theorem scanFrom_append (P S : List Nat) : ∀ n i, S.length - i ≤ n →
    scanFrom (P ++ S) (P.length + i) = scanFrom S i := by
  have hlen : (P ++ S).length = P.length + S.length := List.length_append _ _
  intro n
  induction n with
  | zero =>
    intro i hi
    -- the suffix is exhausted: both scans stop at once
    have h1 : (P ++ S).length < P.length + i + 3 := by omega
    have h2 : S.length < i + 3 := by omega
    rw [scanFrom_unfold, if_pos h1, scanFrom_unfold, if_pos h2]
  | succ n ih =>
    intro i _
    have hblock : blockSizeAt (P ++ S) (P.length + i) = blockSizeAt S i := by
      unfold blockSizeAt
      rw [show P.length + i + 2 = P.length + (i + 2) by omega, byteAt_append,
        show P.length + i + 1 = P.length + (i + 1) by omega, byteAt_append]
    have hdrop : (P ++ S).drop (P.length + i) = S.drop i := by
      rw [List.drop_append_eq_append_drop]
      simp
    have hcrc : ∀ L, crcOkAt (P ++ S) (P.length + i) L = crcOkAt S i L := by
      intro L
      unfold crcOkAt
      rw [hdrop,
        show P.length + i + 3 + L + 2 = P.length + (i + 3 + L + 2) by omega, byteAt_append,
        show P.length + i + 3 + L + 1 = P.length + (i + 3 + L + 1) by omega, byteAt_append,
        show P.length + i + 3 + L = P.length + (i + 3 + L) by omega, byteAt_append]
    conv_lhs => rw [scanFrom_unfold]
    conv_rhs => rw [scanFrom_unfold]
    by_cases h3 : S.length < i + 3
    · have h1 : (P ++ S).length < P.length + i + 3 := by omega
      rw [if_pos h1, if_pos h3]
    · have h1 : ¬ (P ++ S).length < P.length + i + 3 := by omega
      rw [if_neg h1, if_neg h3, byteAt_append, hblock]
      by_cases hd3 : byteAt S i ≠ 0xD3
      · rw [if_pos hd3, if_pos hd3,
          show P.length + i + 1 = P.length + (i + 1) by omega]
        exact ih (i + 1) (by omega)
      · rw [if_neg hd3, if_neg hd3]
        by_cases hcomp : S.length < i + blockSizeAt S i + 6
        · have h2 : (P ++ S).length < P.length + i + blockSizeAt S i + 6 := by omega
          rw [if_pos h2, if_pos hcomp]
        · have h2 : ¬ (P ++ S).length < P.length + i + blockSizeAt S i + 6 := by omega
          rw [if_neg h2, if_neg hcomp]
          by_cases hok : crcOkAt S i (blockSizeAt S i)
          · have h4 : crcOkAt (P ++ S) (P.length + i) (blockSizeAt S i) = true := by
              rw [hcrc]; exact hok
            rw [if_pos h4, if_pos hok, hdrop,
              show P.length + i + blockSizeAt S i + 6 = P.length + (i + blockSizeAt S i + 6) by omega]
            rw [ih (i + blockSizeAt S i + 6) (by omega)]
          · have h4 : ¬ crcOkAt (P ++ S) (P.length + i) (blockSizeAt S i) = true := by
              rw [hcrc]; simpa using hok
            rw [if_neg h4, if_neg hok,
              show P.length + i + 1 = P.length + (i + 1) by omega]
            exact ih (i + 1) (by omega)

/-- C1 (amended). Framer resynchronization: prepending `k` bytes
through which the framer's scan advances byte by byte — at every
position `j < k` of the combined stream either the byte is not `0xD3`,
or it heads a complete-in-buffer frame candidate whose CRC-24Q check
fails — yields the same sequence of framed messages as the original
stream; and whenever the CRC-24Q over the `L+3` header+payload bytes
does not match the trailing 3 CRC bytes of a complete candidate, the
scan pointer advances by exactly one byte and rescans. -/
theorem framer_resync :
    (∀ (P S : List Nat), (∀ j, j < P.length → advanceOk (P ++ S) j) →
      scanFrom (P ++ S) 0 = scanFrom S 0) ∧
    (∀ (buf : List Nat) (m : Nat), byteAt buf m = 0xD3 →
      m + blockSizeAt buf m + 6 ≤ buf.length →
      crcOkAt buf m (blockSizeAt buf m) = false →
      scanFrom buf m = scanFrom buf (m + 1)) := by
  constructor
  · intro P S h
    have h1 : scanFrom (P ++ S) 0 = scanFrom (P ++ S) (0 + P.length) :=
      scanFrom_advance (P ++ S) P.length 0 (fun j _ hj => h j (by omega))
    rw [h1, show 0 + P.length = P.length + 0 by omega]
    exact scanFrom_append P S S.length 0 (by omega)
  · exact scanFrom_crc_mismatch

/-- Witness for `framer_resync` at concrete inputs: a single junk byte
`0x00` before a minimal valid frame leaves the yielded messages
unchanged, and a complete frame candidate with a corrupted CRC byte
makes the scan move by one byte. -/
theorem framer_resync_witness :
    ((∀ j, j < [0].length → advanceOk ([0] ++ [211, 0, 0, 71, 234, 75]) j) ∧
      scanFrom ([0] ++ [211, 0, 0, 71, 234, 75]) 0 =
        scanFrom [211, 0, 0, 71, 234, 75] 0) ∧
    (byteAt [211, 0, 0, 71, 234, 74] 0 = 0xD3 ∧
      0 + blockSizeAt [211, 0, 0, 71, 234, 74] 0 + 6 ≤ 6 ∧
      crcOkAt [211, 0, 0, 71, 234, 74] 0 (blockSizeAt [211, 0, 0, 71, 234, 74] 0) = false ∧
      scanFrom [211, 0, 0, 71, 234, 74] 0 = scanFrom [211, 0, 0, 71, 234, 74] 1) :=
  ⟨⟨by decide, framer_resync.1 [0] [211, 0, 0, 71, 234, 75] (by decide)⟩,
    by decide, by decide, by decide,
    framer_resync.2 [211, 0, 0, 71, 234, 74] 0 (by decide) (by decide) (by decide)⟩

/-- C1 counterexample to the claim as stated.  The prefix
`P = [0xD3, 0x00, 0x01, 0x76, 0xC3, 0x17]` contains no valid frame (it
is a valid frame truncated by one byte), and `S = [0xD3,0,0,0x47,0xEA,0x4B]`
is a valid stream: the framer parses `S` into the single message `S`.
Yet `P ++ S` parses into a single *different* message — the CRC bytes
of the straddling frame end in `0xD3`, which doubles as the start byte
of `S` — so prepending frame-free bytes changed the yielded sequence. -/
theorem framer_resync_counterexample :
    hasValidFrame [211, 0, 1, 118, 195, 23] = false ∧
    scanFrom [211, 0, 0, 71, 234, 75] 0 = [[211, 0, 0, 71, 234, 75]] ∧
    scanFrom ([211, 0, 1, 118, 195, 23] ++ [211, 0, 0, 71, 234, 75]) 0 =
      [[211, 0, 1, 118, 195, 23, 211]] ∧
    scanFrom ([211, 0, 1, 118, 195, 23] ++ [211, 0, 0, 71, 234, 75]) 0 ≠
      scanFrom [211, 0, 0, 71, 234, 75] 0 := by
  refine ⟨by decide, by decide, by decide, by decide⟩

/-! ## Physical constants (`gnss.h`) -/

def LIGHTSPEED : ℚ := 2.99792458e8

def GPS_FREQU_L1 : ℚ := 1575420000
def GPS_FREQU_L2 : ℚ := 1227600000
def GPS_FREQU_L5 : ℚ := 1176450000
def GPS_WAVELENGTH_L1 : ℚ := LIGHTSPEED / GPS_FREQU_L1
def GPS_WAVELENGTH_L2 : ℚ := LIGHTSPEED / GPS_FREQU_L2
def GPS_WAVELENGTH_L5 : ℚ := LIGHTSPEED / GPS_FREQU_L5

def GLO_FREQU_L1_BASE : ℚ := 1602000000
def GLO_FREQU_L2_BASE : ℚ := 1246000000
def GLO_FREQU_L1_STEP : ℚ := 562500
def GLO_FREQU_L2_STEP : ℚ := 437500
def GLO_FREQU_L1 (a : ℤ) : ℚ := GLO_FREQU_L1_BASE + a * GLO_FREQU_L1_STEP
def GLO_FREQU_L2 (a : ℤ) : ℚ := GLO_FREQU_L2_BASE + a * GLO_FREQU_L2_STEP
def GLO_WAVELENGTH_L1 (a : ℤ) : ℚ := LIGHTSPEED / GLO_FREQU_L1 a
def GLO_WAVELENGTH_L2 (a : ℤ) : ℚ := LIGHTSPEED / GLO_FREQU_L2 a
def GLO_WAVELENGTH_L1a : ℚ := LIGHTSPEED / 1600995000
def GLO_WAVELENGTH_L2a : ℚ := LIGHTSPEED / 1248060000
def GLO_WAVELENGTH_L3 : ℚ := LIGHTSPEED / 1202025000

def GAL_WAVELENGTH_E1 : ℚ := LIGHTSPEED / 1575420000
def GAL_WAVELENGTH_E5A : ℚ := LIGHTSPEED / 1176450000
def GAL_WAVELENGTH_E5AB : ℚ := LIGHTSPEED / 1191795000
def GAL_WAVELENGTH_E5B : ℚ := LIGHTSPEED / 1207140000
def GAL_WAVELENGTH_E6 : ℚ := LIGHTSPEED / 1278750000

def QZSS_WAVELENGTH_L6 : ℚ := LIGHTSPEED / 1278750000

def BDS_WAVELENGTH_B1 : ℚ := LIGHTSPEED / 1561098000
def BDS_WAVELENGTH_B2 : ℚ := LIGHTSPEED / 1207140000
def BDS_WAVELENGTH_B3 : ℚ := LIGHTSPEED / 1268520000
def BDS_WAVELENGTH_B1C : ℚ := LIGHTSPEED / 1575420000
def BDS_WAVELENGTH_B2a : ℚ := LIGHTSPEED / 1176450000
def BDS_WAVELENGTH_B2b : ℚ := LIGHTSPEED / 1207140000

def IRNSS_WAVELENGTH_L5 : ℚ := LIGHTSPEED / 1176450000
def IRNSS_WAVELENGTH_S : ℚ := LIGHTSPEED / 2492028000

/-! ## Data model

`bncTime` (bnctime.cpp is outside this snapshot).  Modelled from the
spec: a constellation-agnostic epoch time with three constructors —
GPS-style milliseconds of week (`set`), GLONASS `tk` milliseconds of
Moscow day (`setTk`), BeiDou milliseconds of BDT week (`setBDS`) — and
a valid flag distinguishing "unset" from 0; equality compares the
represented instant.  The conversion between the three time scales
lives outside this repository, so times built by different
constructors are modelled as distinct instants; the claims settled
here only compare times of the same kind. -/

inductive TimeVal
  | gps (ms : Nat)
  | tk (ms : Nat)
  | bds (ms : Nat)
deriving DecidableEq

/-- A frequency observation `t_frqObs`: RINEX 2-char code plus the
optional measurements, each with a validity flag (invalid values keep
the constructor defaults and must not be read). -/
structure FrqObs where
  rnxType2ch : String := ""
  code : ℚ := 0
  codeValid : Bool := false
  phase : ℚ := 0
  phaseValid : Bool := false
  doppler : ℚ := 0
  dopplerValid : Bool := false
  snr : ℚ := 0
  snrValid : Bool := false
  lockTime : ℚ := 0
  lockTimeValid : Bool := false
  lockTimeIndicator : Nat := 0
deriving DecidableEq

/-- A satellite observation `t_satObs`: PRN (system letter and
number), epoch time, source message type and the list of per-frequency
observations. -/
structure SatObs where
  prn : Char × Nat
  time : TimeVal
  type : Nat
  obs : List FrqObs := []
deriving DecidableEq

/-! Ephemeris records.  Fields converted by external helpers
(`accuracyFromIndex`, `fitIntervalFromFlag`, `gnumleap`,
`currentDateAndTimeGPS` — all outside this snapshot) are stored as the
raw decoded indices/flags instead; no claim reads them. -/

/-- `t_ephGPS` as filled by `DecodeGPSEphemeris` (message 1019), and
re-used by the QZSS 1044 and IRNSS 1041 decoders. -/
structure EphGPS where
  prn : Char × Nat
  uraIndex : Nat := 0
  L2Codes : Nat := 0
  IDOT : ℚ := 0
  IODE : Nat := 0
  TOC : TimeVal := .gps 0
  clockDriftrate : ℚ := 0
  clockDrift : ℚ := 0
  clockBias : ℚ := 0
  IODC : Nat := 0
  Crs : ℚ := 0
  DeltaN : ℚ := 0
  M0 : ℚ := 0
  Cuc : ℚ := 0
  ecc : ℚ := 0
  Cus : ℚ := 0
  sqrtA : ℚ := 0
  TOEsec : Nat := 0
  TOEweek : Nat := 0
  Cic : ℚ := 0
  OMEGA0 : ℚ := 0
  Cis : ℚ := 0
  i0 : ℚ := 0
  Crc : ℚ := 0
  omega : ℚ := 0
  OMEGADOT : ℚ := 0
  TGD : ℚ := 0
  health : Nat := 0
  L2PFlag : Nat := 0
  fitIntervalFlag : Nat := 0

/-- `t_ephGlo` as filled by `DecodeGLONASSEphemeris` (message 1020). -/
structure EphGlo where
  prn : Char × Nat
  frequencyNumber : ℤ := 0
  almanacHealth : Nat := 0
  almanacHealthAvailability : Nat := 0
  P1 : Nat := 0
  tki : ℚ := 0
  health : Nat := 0
  P2 : Nat := 0
  TOC : TimeVal := .tk 0
  xVelocity : ℚ := 0
  xPos : ℚ := 0
  xAcceleration : ℚ := 0
  yVelocity : ℚ := 0
  yPos : ℚ := 0
  yAcceleration : ℚ := 0
  zVelocity : ℚ := 0
  zPos : ℚ := 0
  zAcceleration : ℚ := 0
  P3 : Nat := 0
  gamma : ℚ := 0
  MP : Nat := 0
  Ml3 : Nat := 0
  tau : ℚ := 0
  MDeltaTau : ℚ := 0
  E : Nat := 0
  MP4 : Nat := 0
  MFT : Nat := 0
  MNT : Nat := 0
  MM : Nat := 0
  additionalDataAvailability : Nat := 0
  NA : Nat := 0
  tauC : ℚ := 0
  MN4 : Nat := 0
  MTauGPS : ℚ := 0
  Ml5 : Nat := 0

/-- `t_ephSBAS` as filled by `DecodeSBASEphemeris` (message 1043). -/
structure EphSBAS where
  prn : Char × Nat
  IODN : Nat := 0
  TOCtod : Nat := 0
  uraIndex : Nat := 0
  xPos : ℚ := 0
  yPos : ℚ := 0
  zPos : ℚ := 0
  xVelocity : ℚ := 0
  yVelocity : ℚ := 0
  zVelocity : ℚ := 0
  xAcceleration : ℚ := 0
  yAcceleration : ℚ := 0
  zAcceleration : ℚ := 0
  agf0 : ℚ := 0
  agf1 : ℚ := 0

/-- `t_ephGal` as filled by `DecodeGalileoEphemeris` (1045/1046). -/
structure EphGal where
  prn : Char × Nat
  inav : Bool := false
  fnav : Bool := false
  TOEweek : Nat := 0
  IODnav : Nat := 0
  SISAIndex : Nat := 0
  IDOT : ℚ := 0
  TOCsec : Nat := 0
  clockDriftrate : ℚ := 0
  clockDrift : ℚ := 0
  clockBias : ℚ := 0
  Crs : ℚ := 0
  DeltaN : ℚ := 0
  M0 : ℚ := 0
  Cuc : ℚ := 0
  ecc : ℚ := 0
  Cus : ℚ := 0
  sqrtA : ℚ := 0
  TOEsec : Nat := 0
  Cic : ℚ := 0
  OMEGA0 : ℚ := 0
  Cis : ℚ := 0
  i0 : ℚ := 0
  Crc : ℚ := 0
  omega : ℚ := 0
  OMEGADOT : ℚ := 0
  BGD15A : ℚ := 0
  BGD15B : ℚ := 0
  E5aHS : Nat := 0
  e5aDataInValid : Nat := 0
  E5bHS : Nat := 0
  e5bDataInValid : Nat := 0
  E1bHS : Nat := 0
  e1DataInValid : Nat := 0

/-- `t_ephBDS` as filled by `DecodeBDSEphemeris` (message 1042). -/
structure EphBDS where
  prn : Char × Nat
  BDTweek : Nat := 0
  uraIndex : Nat := 0
  IDOT : ℚ := 0
  AODE : Nat := 0
  TOCraw : Nat := 0
  clockDriftrate : ℚ := 0
  clockDrift : ℚ := 0
  clockBias : ℚ := 0
  AODC : Nat := 0
  Crs : ℚ := 0
  DeltaN : ℚ := 0
  M0 : ℚ := 0
  Cuc : ℚ := 0
  ecc : ℚ := 0
  Cus : ℚ := 0
  sqrtA : ℚ := 0
  TOEsec : Nat := 0
  Cic : ℚ := 0
  OMEGA0 : ℚ := 0
  Cis : ℚ := 0
  i0 : ℚ := 0
  Crc : ℚ := 0
  omega : ℚ := 0
  OMEGADOT : ℚ := 0
  TGD1 : ℚ := 0
  TGD2 : ℚ := 0
  SatH1 : Nat := 0

/-- An emitted ephemeris record: one of the five callback channels
(`newGPSEph` also carries QZSS and IRNSS records). -/
inductive Eph
  | gpsEph (e : EphGPS)
  | gloEph (e : EphGlo)
  | sbasEph (e : EphSBAS)
  | galEph (e : EphGal)
  | bdsEph (e : EphBDS)

/-- Antenna reference point entry (`t_antRefPoint`, messages
1005/1006). -/
structure AntRefPoint where
  xx : ℚ := 0
  yy : ℚ := 0
  zz : ℚ := 0
  height : ℚ := 0
  heightF : Bool := false
  message : Nat := 0

/-- Antenna descriptor entry (`t_antInfo`).  Descriptor and serial
number are byte strings. -/
structure AntInfo where
  descriptor : List Nat := []
  serialnumber : List Nat := []

/-- Receiver descriptor entry (`t_recInfo`). -/
structure RecInfo where
  descriptor : List Nat := []
  firmware : List Nat := []
  serialnumber : List Nat := []

/-- The decoder state mutated by the message decoders: the pull-style
result lists of `GPSDecoder` (`_obsList`, `_antList`, `_antType`,
`_recType`, `_typeList`), the epoch accumulator (`_CurrentTime`,
`_CurrentObsList`), the shared GLONASS frequency table `GLOFreq`, and
the push-style emissions (`ephs` collects the ephemeris callbacks,
`diags` counts the `newMessage` diagnostics that are always compiled
in).  `oobWrite` records that some `GLOFreq` store used an index
outside `[0,64)` — C performs an out-of-bounds write there, which a
total model cannot; the write is skipped and flagged instead.
`goodObs` counts observation-decoder calls that ran to completion and
returned `true` (the `return decoded` of the C functions), and
`ssrOk` counts successful delegations to the SSR sub-decoder; both
exist so that the result of `Decode` can be characterised. -/
structure DecSt where
  obsList : List SatObs := []
  curList : List SatObs := []
  curTime : Option TimeVal := none
  gloFreq : List ℤ := List.replicate 64 0
  oobWrite : Bool := false
  ephs : List Eph := []
  diags : Nat := 0
  typeList : List Nat := []
  antList : List AntRefPoint := []
  antType : List AntInfo := []
  recType : List RecInfo := []
  goodObs : Nat := 0
  ssrOk : Nat := 0

/-- External collaborators of the decoder that live outside this
snapshot: `lti2sec` (bncutils.cpp; lock-time indicator to seconds,
negative for invalid), the SSR sub-decoder `RTCM3coDecoder::Decode`
(given the message id, the frame bytes and the block size, did it
return `success`?), and `gpsw`, the wall-clock GPS week that
`bncTime::gpsw()` yields for a time built from a millisecond-of-week
during this call (the ephemeris decoders compare the broadcast week
against it).  Theorems quantify over them. -/
structure Ctx where
  lti2sec : Nat → Nat → ℚ
  ssrDecode : Nat → List Nat → Nat → Bool
  gpsw : Nat

/-! ## Bit reader

Modelled from the spec (§4.1): the `GETBITS`/`SKIPBITS`/`GETFLOAT`
macro family of `bits.h` (not part of this snapshot) is a lazy
MSB-first cursor over the message payload; a read that would need
bytes past the end of the message makes the enclosing decoder function
`return false` immediately.  `Rd` carries the frame bytes and the
`size` argument (the block size, header and CRC included); the C code
does `data += 3; size -= 6` before reading, so bit position 0 is bit
24 of the frame and `size-6` payload bytes are readable. -/

structure Rd where
  buf : List Nat
  len : Nat

/-- Bit `i` (MSB-first) of the byte buffer. -/
def bitAt (buf : List Nat) (i : Nat) : Nat :=
  (byteAt buf (i / 8) >>> (7 - i % 8)) % 2

/-- Value of `n` bits MSB-first starting at bit `pos`. -/
def bitsVal (buf : List Nat) (pos : Nat) : Nat → Nat
  | 0 => 0
  | n + 1 => bitsVal buf pos n * 2 + bitAt buf (pos + n)

/-- Two's-complement reinterpretation of an `n`-bit raw value
(`GETBITSSIGN` sign-extends). -/
def toSign (n raw : Nat) : ℤ :=
  if raw < 2 ^ (n - 1) then (raw : ℤ) else (raw : ℤ) - 2 ^ n

/-- The parse monad: a bit cursor that may fail (running past the end
of the message). -/
def P (α : Type) : Type := Nat → Option (α × Nat)

instance : Monad P where
  pure a := fun pos => some (a, pos)
  bind x f := fun pos =>
    match x pos with
    | none => none
    | some (a, pos') => f a pos'

/-- `GETBITS(b, n)`: `n` bits MSB-first, failing past the payload end
(byte-granular loads always stay within the payload exactly when
`pos + n ≤ 8·(size-6)`). -/
def getBits (rd : Rd) (n : Nat) : P Nat := fun pos =>
  if pos + n ≤ 8 * (rd.len - 6) then some (bitsVal rd.buf (24 + pos) n, pos + n) else none

/-- `SKIPBITS(n)`. -/
def skipBits (rd : Rd) (n : Nat) : P Unit := fun pos =>
  if pos + n ≤ 8 * (rd.len - 6) then some ((), pos + n) else none

/-- `GETBITSSIGN(b, n)`: two's-complement signed read. -/
def getBitsSign (rd : Rd) (n : Nat) : P ℤ := do
  let raw ← getBits rd n
  pure (toSign n raw)

/-- `GETFLOAT(b, n, scale)`. -/
def getFloat (rd : Rd) (n : Nat) (scale : ℚ) : P ℚ := do
  let raw ← getBits rd n
  pure ((raw : ℚ) * scale)

/-- `GETFLOATSIGN(b, n, scale)`. -/
def getFloatSign (rd : Rd) (n : Nat) (scale : ℚ) : P ℚ := do
  let raw ← getBits rd n
  pure ((toSign n raw : ℚ) * scale)

/-- `GETFLOATSIGNM(b, n, scale)`: GLONASS sign-magnitude — a sign bit
followed by an `n-1`-bit magnitude. -/
def getFloatSignM (rd : Rd) (n : Nat) (scale : ℚ) : P ℚ := do
  let s ← getBits rd 1
  let mag ← getBits rd (n - 1)
  pure (if s = 1 then -((mag : ℚ) * scale) else (mag : ℚ) * scale)

/-- `GETBITSFACTOR(b, n, factor)`. -/
def getBitsFactor (rd : Rd) (n factor : Nat) : P Nat := do
  let raw ← getBits rd n
  pure (raw * factor)

/-- `GETSTRING(len, str)`: an 8-bit length followed by that many
bytes. -/
def getString (rd : Rd) : P (Nat × List Nat) := fun pos => do
  let (n, pos₁) ← getBits rd 8 pos
  let plen := 8 * (rd.len - 6)
  if pos₁ + 8 * n ≤ plen then
    some ((n, (List.range n).map (fun k => bitsVal rd.buf (24 + pos₁ + 8 * k) 8)), pos₁ + 8 * n)
  else none

/-! ## Test-input construction helpers

Used only to build the concrete frames of witnesses and
counterexamples; they are not part of the decoder model. -/

/-- The `w` bits of `v`, MSB first. -/
def bitsOf (w v : Nat) : List Nat :=
  (List.range w).map (fun k => (v >>> (w - 1 - k)) % 2)

/-- Packs a bit list into bytes, zero-padding the tail. -/
def bytesOfBits : List Nat → List Nat
  | b0 :: b1 :: b2 :: b3 :: b4 :: b5 :: b6 :: b7 :: rest =>
    (b0 * 128 + b1 * 64 + b2 * 32 + b3 * 16 + b4 * 8 + b5 * 4 + b6 * 2 + b7) ::
      bytesOfBits rest
  | [] => []
  | rest => [(rest ++ List.replicate 8 0).take 8 |>.foldl (fun a b => a * 2 + b) 0]

/-- Packs `(width, value)` fields MSB-first into payload bytes. -/
def packBits (fields : List (Nat × Nat)) : List Nat :=
  bytesOfBits (fields.map (fun f => bitsOf f.1 f.2)).flatten

/-- Wraps a payload into a complete frame: `0xD3`, 10-bit length, the
payload, and its CRC-24Q. -/
def frameOf (payload : List Nat) : List Nat :=
  let hdr := [0xD3, payload.length / 256, payload.length % 256]
  let c := crc24 (hdr ++ payload)
  hdr ++ payload ++ [c / 65536, c / 256 % 256, c % 256]

/-! ## Shared observation-decoder state helpers -/

/-- The epoch flush: `_obsList.append(_CurrentObsList);
_CurrentObsList.clear();` (`QList::append` of a list appends its
elements). -/
def flushObs (st : DecSt) : DecSt :=
  { st with obsList := st.obsList ++ st.curList, curList := [] }

/-- `_CurrentTime.valid() && CurrentObsTime != _CurrentTime`. -/
def epochChanged (cur : Option TimeVal) (t : TimeVal) : Bool :=
  match cur with
  | some t0 => t0 != t
  | none => false

/-- Bookkeeping of `return decoded` at the end of a completed
observation-decoder call: counts the calls that return `true`. -/
def finishObs (st : DecSt) (decoded : Bool) : DecSt × Option Bool :=
  (if decoded then { st with goodObs := st.goodObs + 1 } else st, some decoded)

/-- Final `if (!syncf) { decoded = true; _obsList.append(...);
_CurrentTime.reset(); _CurrentObsList.clear(); } return decoded;` of
the three observation decoders. -/
def obsSyncFinish (st : DecSt) (syncf : Nat) (decoded₁ : Bool) : DecSt × Option Bool :=
  if syncf = 0 then finishObs { (flushObs st) with curTime := none } true
  else finishObs st decoded₁

/-- A store `GLOFreq[idx] = v` to the shared 64-entry GLONASS
frequency table.  The C array index is an `int`; an index outside
`[0,64)` is an out-of-bounds write, which the model records in
`oobWrite` instead of performing. -/
def gloWrite (st : DecSt) (idx v : ℤ) : DecSt :=
  if 0 ≤ idx ∧ idx < 64 then { st with gloFreq := st.gloFreq.set idx.toNat v }
  else { st with oobWrite := true }

/-! ## Legacy GPS observations: `RTCM3Decoder::DecodeRTCM3GPS`
(messages 1001-1004, RTCM3Decoder.cpp:98-218) -/

/-- The shared legacy observation header: 12-bit type, 12-bit station
id (skipped), then the epoch field — 30-bit GPS TOW for 1001-1004,
27-bit GLONASS `tk` for 1009-1012. -/
def gpsObsHeader (rd : Rd) : P (Nat × Nat) := do
  let type ← getBits rd 12
  skipBits rd 12
  let tow ← getBits rd 30
  pure (type, tow)

def gloObsHeader (rd : Rd) : P (Nat × Nat) := do
  let type ← getBits rd 12
  skipBits rd 12
  let tk ← getBits rd 27
  pure (type, tk)

/-- Sync flag, 5-bit satellite count and the 4 smoothing bits of the
legacy observation headers. -/
def obsFlags (rd : Rd) : P (Nat × Nat) := do
  let syncf ← getBits rd 1
  let numsats ← getBits rd 5
  skipBits rd 4
  pure (syncf, numsats)

/-- PRN assignment of the legacy GPS-family decoder
(RTCM3Decoder.cpp:133-137): a 6-bit satellite field below 40 is a GPS
satellite; otherwise an SBAS satellite numbered `sv - 20`. -/
def gpsObsPrn (sv : Nat) : Char × Nat :=
  if sv < 40 then ('G', sv) else ('S', sv - 20)

/-- The L1 frequency observation built by `DecodeRTCM3GPS`
(RTCM3Decoder.cpp:139-165) from the raw fields: 1-bit code indicator,
24-bit pseudorange in 0.02 m, 20-bit raw phase-code residual (sentinel
`0x80000`), 7-bit lock-time indicator, and — on the extended messages
1002/1004 only — the 8-bit ambiguity and 8-bit CNR reads, passed as
`ext`. -/
def gpsL1Obs (ctx : Ctx) (type code l1range iraw lti : Nat)
    (ext : Option (Nat × Nat)) : FrqObs :=
  let f0 : FrqObs := { rnxType2ch := if code ≠ 0 then "1W" else "1C" }
  let f1 :=
    if iraw ≠ 0x80000 then
      { f0 with
        code := (l1range : ℚ) * 0.02
        phase := ((l1range : ℚ) * 0.02 + (toSign 20 iraw : ℚ) * 0.0005) / GPS_WAVELENGTH_L1
        codeValid := true, phaseValid := true }
    else f0
  let lt := ctx.lti2sec type lti
  let f2 := { f1 with lockTimeIndicator := lti, lockTime := lt,
                      lockTimeValid := decide (0 ≤ lt) && f1.phaseValid }
  match ext with
  | none => f2
  | some (amb, cnr) =>
    let f3 :=
      if amb ≠ 0 then
        { f2 with
          code := f2.code + (amb : ℚ) * 299792.458
          phase := f2.phase + (amb : ℚ) * 299792.458 / GPS_WAVELENGTH_L1 }
      else f2
    if cnr ≠ 0 then { f3 with snr := (cnr : ℚ) * 0.25, snrValid := true } else f3

/-- The L2 frequency observation of `DecodeRTCM3GPS`
(RTCM3Decoder.cpp:167-207), present on 1003/1004: 2-bit code
indicator, 14-bit raw code difference (sentinel `0x2000`), 20-bit raw
phase residual (sentinel `0x80000`), lock-time indicator, and on 1004
the 8-bit CNR. -/
def gpsL2Obs (ctx : Ctx) (type l1range amb code2 draw praw lti : Nat)
    (cnr : Option Nat) : FrqObs :=
  let rnx :=
    match code2 with
    | 3 => "2W"
    | 2 => "2W"
    | 1 => "2P"
    | _ => "2X"
  let f0 : FrqObs := { rnxType2ch := rnx }
  let f1 :=
    if draw ≠ 0x2000 then
      { f0 with
        code := (l1range : ℚ) * 0.02 + (toSign 14 draw : ℚ) * 0.02 + (amb : ℚ) * 299792.458
        codeValid := true }
    else f0
  let f2 :=
    if praw ≠ 0x80000 then
      { f1 with
        phase := ((l1range : ℚ) * 0.02 + (toSign 20 praw : ℚ) * 0.0005 +
            (amb : ℚ) * 299792.458) / GPS_WAVELENGTH_L2
        phaseValid := true }
    else f1
  let lt := ctx.lti2sec type lti
  let f3 := { f2 with lockTimeIndicator := lti, lockTime := lt,
                      lockTimeValid := decide (0 ≤ lt) && f2.phaseValid }
  match cnr with
  | none => f3
  | some c => if c ≠ 0 then { f3 with snr := (c : ℚ) * 0.25, snrValid := true } else f3

/-- One iteration of the satellite loop of `DecodeRTCM3GPS`
(RTCM3Decoder.cpp:127-209): the raw reads in source order, assembled
into one `SatObs`.  The loop body has no state effect until its final
`push_back`, so a failed read yields nothing. -/
def gpsSatBody (ctx : Ctx) (rd : Rd) (type : Nat) (t : TimeVal) : P SatObs := do
  let sv ← getBits rd 6
  let code ← getBits rd 1
  let l1range ← getBits rd 24
  let iraw ← getBits rd 20
  let lti ← getBits rd 7
  let ext ←
    if type = 1002 ∨ type = 1004 then do
      let amb ← getBits rd 8
      let cnr ← getBits rd 8
      pure (some (amb, cnr))
    else pure none
  let amb := (ext.map Prod.fst).getD 0
  let frq1 := gpsL1Obs ctx type code l1range iraw lti ext
  if type = 1003 ∨ type = 1004 then do
    let code2 ← getBits rd 2
    let draw ← getBits rd 14
    let praw ← getBits rd 20
    let lti2 ← getBits rd 7
    let cnr2 ←
      if type = 1004 then do
        let c ← getBits rd 8
        pure (some c)
      else pure none
    pure { prn := gpsObsPrn sv, time := t, type := type,
           obs := [frq1, gpsL2Obs ctx type l1range amb code2 draw praw lti2 cnr2] }
  else
    pure { prn := gpsObsPrn sv, time := t, type := type, obs := [frq1] }

/-- The `while (numsats--)` loop of `DecodeRTCM3GPS`: accumulates the
parsed satellites; a read failure aborts the loop keeping the
satellites already pushed. -/
def gpsSatLoop (ctx : Ctx) (rd : Rd) (type : Nat) (t : TimeVal) :
    Nat → Nat → List SatObs → List SatObs × Option Nat
  | 0, pos, acc => (acc, some pos)
  | n + 1, pos, acc =>
    match gpsSatBody ctx rd type t pos with
    | none => (acc, none)
    | some (obs, pos') => gpsSatLoop ctx rd type t n pos' (acc ++ [obs])

/-- `RTCM3Decoder::DecodeRTCM3GPS` (RTCM3Decoder.cpp:98-218).  The
result is `none` when a bit read ran past the message end (the C
function does `return false` there, keeping all state changes made so
far), and `some b` when the function ran to its final
`return decoded`. -/
def decodeRTCM3GPS (ctx : Ctx) (rd : Rd) (st : DecSt) : DecSt × Option Bool :=
  match gpsObsHeader rd 0 with
  | none => (st, none)
  | some ((type, tow), pos₁) =>
    let t := TimeVal.gps tow
    let (st₁, decoded₁) :=
      if epochChanged st.curTime t then (flushObs st, true) else (st, false)
    let st₁ := { st₁ with curTime := some t }
    match obsFlags rd pos₁ with
    | none => (st₁, none)
    | some ((syncf, numsats), pos₂) =>
      match gpsSatLoop ctx rd type t numsats pos₂ [] with
      | (acc, none) => ({ st₁ with curList := st₁.curList ++ acc }, none)
      | (acc, some _) =>
        let st₂ := { st₁ with curList := st₁.curList ++ acc }
        obsSyncFinish st₂ syncf decoded₁

/-! ## Legacy GLONASS observations: `RTCM3Decoder::DecodeRTCM3GLONASS`
(messages 1009-1012, RTCM3Decoder.cpp:901-1019) -/

/-- The L1 frequency observation built by `DecodeRTCM3GLONASS`
(RTCM3Decoder.cpp:942-967).  Unlike GPS: the pseudorange field is 25
bits, the wavelength depends on the frequency slot `freq - 7`, the
ambiguity field of the extended messages 1010/1012 is 7 bits and an
ambiguity unit is `599584.916` m, i.e. `2·c/1000`. -/
def gloL1Obs (ctx : Ctx) (type code l1range iraw lti freq : Nat)
    (ext : Option (Nat × Nat)) : FrqObs :=
  let f0 : FrqObs := { rnxType2ch := if code ≠ 0 then "1P" else "1C" }
  let f1 :=
    if iraw ≠ 0x80000 then
      { f0 with
        code := (l1range : ℚ) * 0.02
        phase := ((l1range : ℚ) * 0.02 + (toSign 20 iraw : ℚ) * 0.0005) /
          GLO_WAVELENGTH_L1 ((freq : ℤ) - 7)
        codeValid := true, phaseValid := true }
    else f0
  let lt := ctx.lti2sec type lti
  let f2 := { f1 with lockTimeIndicator := lti, lockTime := lt,
                      lockTimeValid := decide (0 ≤ lt) && f1.phaseValid }
  match ext with
  | none => f2
  | some (amb, cnr) =>
    let f3 :=
      if amb ≠ 0 then
        { f2 with
          code := f2.code + (amb : ℚ) * 599584.916
          phase := f2.phase + (amb : ℚ) * 599584.916 / GLO_WAVELENGTH_L1 ((freq : ℤ) - 7) }
      else f2
    if cnr ≠ 0 then { f3 with snr := (cnr : ℚ) * 0.25, snrValid := true } else f3

/-- The L2 frequency observation of `DecodeRTCM3GLONASS`
(RTCM3Decoder.cpp:969-1008), present on 1011/1012. -/
def gloL2Obs (ctx : Ctx) (type l1range amb code2 draw praw lti freq : Nat)
    (cnr : Option Nat) : FrqObs :=
  let rnx :=
    match code2 with
    | 3 => "2P"
    | 2 => "2P"
    | 1 => "2P"
    | _ => "2C"
  let f0 : FrqObs := { rnxType2ch := rnx }
  let f1 :=
    if draw ≠ 0x2000 then
      { f0 with
        code := (l1range : ℚ) * 0.02 + (toSign 14 draw : ℚ) * 0.02 + (amb : ℚ) * 599584.916
        codeValid := true }
    else f0
  let f2 :=
    if praw ≠ 0x80000 then
      { f1 with
        phase := ((l1range : ℚ) * 0.02 + (toSign 20 praw : ℚ) * 0.0005 +
            (amb : ℚ) * 599584.916) / GLO_WAVELENGTH_L2 ((freq : ℤ) - 7)
        phaseValid := true }
    else f1
  let lt := ctx.lti2sec type lti
  let f3 := { f2 with lockTimeIndicator := lti, lockTime := lt,
                      lockTimeValid := decide (0 ≤ lt) && f2.phaseValid }
  match cnr with
  | none => f3
  | some c => if c ≠ 0 then { f3 with snr := (c : ℚ) * 0.25, snrValid := true } else f3

/-- One iteration of the satellite loop of `DecodeRTCM3GLONASS`
(RTCM3Decoder.cpp:930-1011).  After the first three reads (satellite,
code flag, frequency slot) the loop stores
`GLOFreq[sv-1] = 100 + freq - 7`; this store persists even if a later
read fails, so the result separates the store data (`sv`, `freq`) from
the rest of the parse. -/
def gloSatBody (ctx : Ctx) (rd : Rd) (type : Nat) (t : TimeVal) (pos : Nat) :
    Option (Nat × Nat × Option (SatObs × Nat)) :=
  match (do
      let sv ← getBits rd 6
      let code ← getBits rd 1
      let freq ← getBits rd 5
      pure (sv, code, freq)) pos with
  | none => none
  | some ((sv, code, freq), pos₁) =>
    some (sv, freq,
      (do
        let l1range ← getBits rd 25
        let iraw ← getBits rd 20
        let lti ← getBits rd 7
        let ext ←
          if type = 1010 ∨ type = 1012 then do
            let amb ← getBits rd 7
            let cnr ← getBits rd 8
            pure (some (amb, cnr))
          else pure none
        let amb := (ext.map Prod.fst).getD 0
        let frq1 := gloL1Obs ctx type code l1range iraw lti freq ext
        if type = 1011 ∨ type = 1012 then do
          let code2 ← getBits rd 2
          let draw ← getBits rd 14
          let praw ← getBits rd 20
          let lti2 ← getBits rd 7
          let cnr2 ←
            if type = 1012 then do
              let c ← getBits rd 8
              pure (some c)
            else pure none
          pure ({ prn := ('R', sv), time := t, type := type,
                  obs := [frq1, gloL2Obs ctx type l1range amb code2 draw praw lti2 freq cnr2] } : SatObs)
        else
          pure ({ prn := ('R', sv), time := t, type := type, obs := [frq1] } : SatObs)) pos₁)

/-- The `while (numsats--)` loop of `DecodeRTCM3GLONASS`: threads the
decoder state because of the `GLOFreq` stores. -/
def gloSatLoop (ctx : Ctx) (rd : Rd) (type : Nat) (t : TimeVal) :
    Nat → Nat → DecSt → DecSt × Option Nat
  | 0, pos, st => (st, some pos)
  | n + 1, pos, st =>
    match gloSatBody ctx rd type t pos with
    | none => (st, none)
    | some (sv, freq, rest) =>
      let st₁ := gloWrite st ((sv : ℤ) - 1) (100 + (freq : ℤ) - 7)
      match rest with
      | none => (st₁, none)
      | some (obs, pos') =>
        gloSatLoop ctx rd type t n pos' { st₁ with curList := st₁.curList ++ [obs] }

/-- `RTCM3Decoder::DecodeRTCM3GLONASS` (RTCM3Decoder.cpp:901-1019). -/
def decodeRTCM3GLONASS (ctx : Ctx) (rd : Rd) (st : DecSt) : DecSt × Option Bool :=
  match gloObsHeader rd 0 with
  | none => (st, none)
  | some ((type, tk), pos₁) =>
    let t := TimeVal.tk tk
    let (st₁, decoded₁) :=
      if epochChanged st.curTime t then (flushObs st, true) else (st, false)
    let st₁ := { st₁ with curTime := some t }
    match obsFlags rd pos₁ with
    | none => (st₁, none)
    | some ((syncf, numsats), pos₂) =>
      match gloSatLoop ctx rd type t numsats pos₂ st₁ with
      | (st₂, none) => (st₂, none)
      | (st₂, some _) =>
        obsSyncFinish st₂ syncf decoded₁

/-! ## MSM observations: `RTCM3Decoder::DecodeRTCM3MSM`
(messages 1071-1137, RTCM3Decoder.cpp:462-897) -/

/-- `struct CodeData`: wavelength and RINEX code of a signal-mask
slot; a null `code` marks a reserved/unknown slot.  For GLONASS the
wavelengths `0.0`/`1.0` are placeholders for the slot-dependent L1/L2
bands. -/
structure CodeData where
  wl : ℚ
  code : Option String

/-- `static struct CodeData gps[32]` (RTCM3Decoder.cpp:239-272),
also used for SBAS. -/
def gpsMSM : List CodeData := [
  ⟨0, none⟩,
  ⟨GPS_WAVELENGTH_L1, some "1C"⟩,
  ⟨GPS_WAVELENGTH_L1, some "1P"⟩,
  ⟨GPS_WAVELENGTH_L1, some "1W"⟩,
  ⟨0, none⟩, ⟨0, none⟩, ⟨0, none⟩,
  ⟨GPS_WAVELENGTH_L2, some "2C"⟩,
  ⟨GPS_WAVELENGTH_L2, some "2P"⟩,
  ⟨GPS_WAVELENGTH_L2, some "2W"⟩,
  ⟨0, none⟩, ⟨0, none⟩, ⟨0, none⟩, ⟨0, none⟩,
  ⟨GPS_WAVELENGTH_L2, some "2S"⟩,
  ⟨GPS_WAVELENGTH_L2, some "2L"⟩,
  ⟨GPS_WAVELENGTH_L2, some "2X"⟩,
  ⟨0, none⟩, ⟨0, none⟩, ⟨0, none⟩, ⟨0, none⟩,
  ⟨GPS_WAVELENGTH_L5, some "5I"⟩,
  ⟨GPS_WAVELENGTH_L5, some "5Q"⟩,
  ⟨GPS_WAVELENGTH_L5, some "5X"⟩,
  ⟨0, none⟩, ⟨0, none⟩, ⟨0, none⟩, ⟨0, none⟩, ⟨0, none⟩,
  ⟨GPS_WAVELENGTH_L1, some "1S"⟩,
  ⟨GPS_WAVELENGTH_L1, some "1L"⟩,
  ⟨GPS_WAVELENGTH_L1, some "1X"⟩]

/-- `static struct CodeData glo[32]` (RTCM3Decoder.cpp:279-312):
wavelengths `0.0`/`1.0` are the L1-band/L2-band placeholders resolved
per satellite at decode time. -/
def gloMSM : List CodeData := [
  ⟨0, none⟩,
  ⟨0, some "1C"⟩,
  ⟨0, some "1P"⟩,
  ⟨0, none⟩, ⟨0, none⟩, ⟨0, none⟩, ⟨0, none⟩,
  ⟨1, some "2C"⟩,
  ⟨1, some "2P"⟩,
  ⟨GLO_WAVELENGTH_L1a, some "4A"⟩,
  ⟨GLO_WAVELENGTH_L1a, some "4B"⟩,
  ⟨GLO_WAVELENGTH_L1a, some "4X"⟩,
  ⟨GLO_WAVELENGTH_L2a, some "6A"⟩,
  ⟨GLO_WAVELENGTH_L2a, some "6B"⟩,
  ⟨GLO_WAVELENGTH_L2a, some "6X"⟩,
  ⟨GLO_WAVELENGTH_L3, some "3I"⟩,
  ⟨GLO_WAVELENGTH_L3, some "3Q"⟩,
  ⟨GLO_WAVELENGTH_L3, some "3X"⟩,
  ⟨0, none⟩, ⟨0, none⟩, ⟨0, none⟩, ⟨0, none⟩, ⟨0, none⟩, ⟨0, none⟩, ⟨0, none⟩,
  ⟨0, none⟩, ⟨0, none⟩, ⟨0, none⟩, ⟨0, none⟩, ⟨0, none⟩, ⟨0, none⟩, ⟨0, none⟩]

/-- `static struct CodeData gal[32]` (RTCM3Decoder.cpp:315-348). -/
def galMSM : List CodeData := [
  ⟨0, none⟩,
  ⟨GAL_WAVELENGTH_E1, some "1C"⟩,
  ⟨GAL_WAVELENGTH_E1, some "1A"⟩,
  ⟨GAL_WAVELENGTH_E1, some "1B"⟩,
  ⟨GAL_WAVELENGTH_E1, some "1X"⟩,
  ⟨GAL_WAVELENGTH_E1, some "1Z"⟩,
  ⟨0, none⟩,
  ⟨GAL_WAVELENGTH_E6, some "6C"⟩,
  ⟨GAL_WAVELENGTH_E6, some "6A"⟩,
  ⟨GAL_WAVELENGTH_E6, some "6B"⟩,
  ⟨GAL_WAVELENGTH_E6, some "6X"⟩,
  ⟨GAL_WAVELENGTH_E6, some "6Z"⟩,
  ⟨0, none⟩,
  ⟨GAL_WAVELENGTH_E5B, some "7I"⟩,
  ⟨GAL_WAVELENGTH_E5B, some "7Q"⟩,
  ⟨GAL_WAVELENGTH_E5B, some "7X"⟩,
  ⟨0, none⟩,
  ⟨GAL_WAVELENGTH_E5AB, some "8I"⟩,
  ⟨GAL_WAVELENGTH_E5AB, some "8Q"⟩,
  ⟨GAL_WAVELENGTH_E5AB, some "8X"⟩,
  ⟨0, none⟩,
  ⟨GAL_WAVELENGTH_E5A, some "5I"⟩,
  ⟨GAL_WAVELENGTH_E5A, some "5Q"⟩,
  ⟨GAL_WAVELENGTH_E5A, some "5X"⟩,
  ⟨0, none⟩, ⟨0, none⟩, ⟨0, none⟩, ⟨0, none⟩, ⟨0, none⟩, ⟨0, none⟩, ⟨0, none⟩,
  ⟨0, none⟩]

/-- `static struct CodeData qzss[32]` (RTCM3Decoder.cpp:351-384). -/
def qzssMSM : List CodeData := [
  ⟨0, none⟩,
  ⟨GPS_WAVELENGTH_L1, some "1C"⟩,
  ⟨0, none⟩, ⟨0, none⟩, ⟨0, none⟩, ⟨0, none⟩, ⟨0, none⟩, ⟨0, none⟩,
  ⟨QZSS_WAVELENGTH_L6, some "6S"⟩,
  ⟨QZSS_WAVELENGTH_L6, some "6L"⟩,
  ⟨QZSS_WAVELENGTH_L6, some "6X"⟩,
  ⟨0, none⟩, ⟨0, none⟩, ⟨0, none⟩,
  ⟨GPS_WAVELENGTH_L2, some "2S"⟩,
  ⟨GPS_WAVELENGTH_L2, some "2L"⟩,
  ⟨GPS_WAVELENGTH_L2, some "2X"⟩,
  ⟨0, none⟩, ⟨0, none⟩, ⟨0, none⟩, ⟨0, none⟩,
  ⟨GPS_WAVELENGTH_L5, some "5I"⟩,
  ⟨GPS_WAVELENGTH_L5, some "5Q"⟩,
  ⟨GPS_WAVELENGTH_L5, some "5X"⟩,
  ⟨0, none⟩, ⟨0, none⟩, ⟨0, none⟩, ⟨0, none⟩, ⟨0, none⟩,
  ⟨GPS_WAVELENGTH_L1, some "1S"⟩,
  ⟨GPS_WAVELENGTH_L1, some "1L"⟩,
  ⟨GPS_WAVELENGTH_L1, some "1X"⟩]

/-- `static struct CodeData bds[32]` (RTCM3Decoder.cpp:387-420). -/
def bdsMSM : List CodeData := [
  ⟨0, none⟩,
  ⟨BDS_WAVELENGTH_B1, some "2I"⟩,
  ⟨BDS_WAVELENGTH_B1, some "2Q"⟩,
  ⟨BDS_WAVELENGTH_B1, some "2X"⟩,
  ⟨0, none⟩, ⟨0, none⟩, ⟨0, none⟩,
  ⟨BDS_WAVELENGTH_B3, some "6I"⟩,
  ⟨BDS_WAVELENGTH_B3, some "6Q"⟩,
  ⟨BDS_WAVELENGTH_B3, some "6X"⟩,
  ⟨0, none⟩, ⟨0, none⟩, ⟨0, none⟩,
  ⟨BDS_WAVELENGTH_B2, some "7I"⟩,
  ⟨BDS_WAVELENGTH_B2, some "7Q"⟩,
  ⟨BDS_WAVELENGTH_B2, some "7X"⟩,
  ⟨0, none⟩, ⟨0, none⟩, ⟨0, none⟩, ⟨0, none⟩, ⟨0, none⟩,
  ⟨BDS_WAVELENGTH_B2a, some "5D"⟩,
  ⟨BDS_WAVELENGTH_B2a, some "5P"⟩,
  ⟨BDS_WAVELENGTH_B2a, some "5X"⟩,
  ⟨BDS_WAVELENGTH_B2b, some "7D"⟩,
  ⟨0, none⟩, ⟨0, none⟩, ⟨0, none⟩, ⟨0, none⟩,
  ⟨BDS_WAVELENGTH_B1C, some "1D"⟩,
  ⟨BDS_WAVELENGTH_B1C, some "1P"⟩,
  ⟨BDS_WAVELENGTH_B1C, some "1X"⟩]

/-- `static struct CodeData irn[32]` (RTCM3Decoder.cpp:423-456). -/
def irnMSM : List CodeData := [
  ⟨0, none⟩, ⟨0, none⟩, ⟨0, none⟩, ⟨0, none⟩, ⟨0, none⟩, ⟨0, none⟩, ⟨0, none⟩,
  ⟨IRNSS_WAVELENGTH_S, some "9A"⟩,
  ⟨0, none⟩, ⟨0, none⟩, ⟨0, none⟩, ⟨0, none⟩, ⟨0, none⟩, ⟨0, none⟩, ⟨0, none⟩,
  ⟨0, none⟩, ⟨0, none⟩, ⟨0, none⟩, ⟨0, none⟩, ⟨0, none⟩, ⟨0, none⟩,
  ⟨IRNSS_WAVELENGTH_L5, some "5A"⟩,
  ⟨0, none⟩, ⟨0, none⟩, ⟨0, none⟩, ⟨0, none⟩, ⟨0, none⟩, ⟨0, none⟩, ⟨0, none⟩,
  ⟨0, none⟩, ⟨0, none⟩, ⟨0, none⟩]

/-- The per-constellation signal table lookup of the cell walk
(RTCM3Decoder.cpp:722-758), index `RTCM3_MSM_NUMSIG - j - 1`; SBAS
shares the GPS table. -/
def codeDataOf (sys : Char) (idx : Nat) : CodeData :=
  match sys with
  | 'J' => qzssMSM.getD idx ⟨0, none⟩
  | 'C' => bdsMSM.getD idx ⟨0, none⟩
  | 'G' => gpsMSM.getD idx ⟨0, none⟩
  | 'S' => gpsMSM.getD idx ⟨0, none⟩
  | 'R' => gloMSM.getD idx ⟨0, none⟩
  | 'E' => galMSM.getD idx ⟨0, none⟩
  | 'I' => irnMSM.getD idx ⟨0, none⟩
  | _ => ⟨0, none⟩

/-- Constellation classification of `DecodeRTCM3MSM`
(RTCM3Decoder.cpp:473-497).  The SBAS range check in the source is
`type >= 1101 && type <= 1007`, which no `type` satisfies, so the
`'S'` branch is unreachable there; it is transcribed as written. -/
def msmSys (type : Nat) : Option Char :=
  if 1131 ≤ type ∧ type ≤ 1137 then some 'I'
  else if 1121 ≤ type ∧ type ≤ 1127 then some 'C'
  else if 1111 ≤ type ∧ type ≤ 1117 then some 'J'
  else if 1101 ≤ type ∧ type ≤ 1007 then some 'S'
  else if 1091 ≤ type ∧ type ≤ 1097 then some 'E'
  else if 1081 ≤ type ∧ type ≤ 1087 then some 'R'
  else if 1071 ≤ type ∧ type ≤ 1077 then some 'G'
  else none

/-- The MSM epoch-time parse (RTCM3Decoder.cpp:498-512): BDS
millisecond-of-week, GLONASS `tk` after 3 reserved bits, GPS-style
otherwise. -/
def msmTime (rd : Rd) (sys : Char) : P TimeVal :=
  if sys = 'C' then do
    let i ← getBits rd 30
    pure (.bds i)
  else if sys = 'R' then do
    skipBits rd 3
    let i ← getBits rd 27
    pure (.tk i)
  else do
    let i ← getBits rd 30
    pure (.gps i)

/-- The PRN assignment of the cell walk (RTCM3Decoder.cpp:711-714),
from the satellite cursor `i` (the satellite occupies mask bit `i`,
its 1-based position from the top being `64 - i`):
`20 - 1 + RTCM3_MSM_NUMSAT - i` for SBAS, `RTCM3_MSM_NUMSAT - i`
otherwise. -/
def msmPrn (sys : Char) (i : Nat) : Char × Nat :=
  if sys = 'S' then ('S', 20 - 1 + 64 - i) else (sys, 64 - i)

/-- Kernighan bit population count
(RTCM3Decoder.cpp:546-551); the masks have at most 64 bits. -/
def popCount64 (n : Nat) : Nat :=
  (List.range 64).foldl (fun a k => a + n >>> k % 2) 0

/-- The largest set bit of `mask` strictly below `k`: the scans
`while (!(satmask & (1ULL << (--i))))` and
`while (j >= 0 && !(sigmask & (1 << --j)))` of the cell walk
(RTCM3Decoder.cpp:700-717), which decrement until they hit a set bit
(`none` when the cursor falls below 0 first). -/
def prevSetBit (mask : Nat) : Nat → Option Nat
  | 0 => none
  | k + 1 => if mask >>> k % 2 = 1 then some k else prevSetBit mask k

/-- The GLONASS wavelength resolution of the cell walk
(RTCM3Decoder.cpp:734-751): `k = GLOFreq[64 - i - 1]`, overwritten
(and stored back) as `100 + extsat[numsat] - 7` when the MSM5/7
extended info is below 14; a nonzero `k` resolves the `0.0`/`1.0`
placeholder wavelengths through the slot `k - 100`; with `k` zero and
a placeholder wavelength the signal's code is nulled, dropping the
observation. -/
def msmGloCodeData (tbl : List ℤ) (ext : Nat) (satIdx : Nat) (cd0 : CodeData) :
    CodeData × List ℤ :=
  let k0 := tbl.getD satIdx 0
  let (k, tbl') :=
    if ext < 14 then (100 + (ext : ℤ) - 7, tbl.set satIdx (100 + (ext : ℤ) - 7))
    else (k0, tbl)
  if k ≠ 0 then
    if cd0.wl = 0 then ({ cd0 with wl := GLO_WAVELENGTH_L1 (k - 100) }, tbl')
    else if cd0.wl = 1 then ({ cd0 with wl := GLO_WAVELENGTH_L2 (k - 100) }, tbl')
    else (cd0, tbl')
  else if cd0.wl ≤ 1 then ({ cd0 with code := none }, tbl')
  else (cd0, tbl')

/-- Satellite-data section of an MSM frame
(RTCM3Decoder.cpp:557-584).  The C fill loops run `j = numsat-1`
down to `0`, so the lists (stored here in index order `0..numsat-1`)
are the reverse of the read order.  `extsat` entries are initialised
to 15 and only overwritten for subtypes 5/7
(RTCM3Decoder.cpp:552-553); absent entries read as 15 via `extsatAt`. -/
structure MsmSat where
  rrint : List Nat := []
  extsat : List Nat := []
  rrmod : List ℚ := []
  rdop : List ℤ := []

def extsatAt (sat : MsmSat) (j : Nat) : Nat := sat.extsat.getD j 15

/-- `n` sequential raw reads of `w` bits. -/
def readSeq (rd : Rd) (w : Nat) : Nat → P (List Nat)
  | 0 => pure []
  | n + 1 => do
    let v ← getBits rd w
    let rest ← readSeq rd w n
    pure (v :: rest)

def msmSatData (rd : Rd) (subtype numsat : Nat) : P MsmSat :=
  match subtype with
  | 1 | 2 | 3 => do
    let rrmod ← readSeq rd 10 numsat
    pure { rrmod := rrmod.reverse.map (fun v => (v : ℚ) * (1 / 1024)) }
  | 4 | 6 => do
    let rrint ← readSeq rd 8 numsat
    let rrmod ← readSeq rd 10 numsat
    pure { rrint := rrint.reverse,
           rrmod := rrmod.reverse.map (fun v => (v : ℚ) * (1 / 1024)) }
  | 5 | 7 => do
    let rrint ← readSeq rd 8 numsat
    let ext ← readSeq rd 4 numsat
    let rrmod ← readSeq rd 10 numsat
    let rdop ← readSeq rd 14 numsat
    pure { rrint := rrint.reverse, extsat := ext.reverse,
           rrmod := rrmod.reverse.map (fun v => (v : ℚ) * (1 / 1024)),
           rdop := rdop.reverse.map (toSign 14) }
  | _ => pure {}

/-- Signal-data section arrays, keyed by cell index `count`
(RTCM3Decoder.cpp:590-695); only cells whose `cellmask` bit is set
carry data. -/
structure MsmSig where
  psr : List (Nat × ℚ) := []
  cp : List (Nat × ℚ) := []
  ll : List (Nat × Nat) := []
  cnr : List (Nat × ℚ) := []
  dop : List (Nat × ℚ) := []

/-- One field phase of the signal-data section: `w`-bit reads over
the set cells in descending `count` order, converted by `f`. -/
def readCellsQ (rd : Rd) (w : Nat) (f : Nat → ℚ) : List Nat → P (List (Nat × ℚ))
  | [] => pure []
  | c :: cs => do
    let v ← getBits rd w
    let rest ← readCellsQ rd w f cs
    pure ((c, f v) :: rest)

def readCellsN (rd : Rd) (w : Nat) : List Nat → P (List (Nat × Nat))
  | [] => pure []
  | c :: cs => do
    let v ← getBits rd w
    let rest ← readCellsN rd w cs
    pure ((c, v) :: rest)

def cellQ (l : List (Nat × ℚ)) (c : Nat) : ℚ := (l.lookup c).getD 0

def cellN (l : List (Nat × Nat)) (c : Nat) : Nat := (l.lookup c).getD 0

/-- The per-subtype field schedule of the signal-data section
(RTCM3Decoder.cpp:590-695): each field is read for every set cell
before the next field starts; the half-cycle indicator bit is skipped
(one bit per set cell). -/
def msmSignalData (rd : Rd) (subtype : Nat) (cells : List Nat) : P MsmSig :=
  match subtype with
  | 1 => do
    let psr ← readCellsQ rd 15 (fun raw => (toSign 15 raw : ℚ) * (1 / 2 ^ 24)) cells
    pure { psr := psr }
  | 2 => do
    let cp ← readCellsQ rd 22 (fun raw => (toSign 22 raw : ℚ) * (1 / 2 ^ 29)) cells
    let ll ← readCellsN rd 4 cells
    skipBits rd cells.length
    pure { cp := cp, ll := ll }
  | 3 => do
    let psr ← readCellsQ rd 15 (fun raw => (toSign 15 raw : ℚ) * (1 / 2 ^ 24)) cells
    let cp ← readCellsQ rd 22 (fun raw => (toSign 22 raw : ℚ) * (1 / 2 ^ 29)) cells
    let ll ← readCellsN rd 4 cells
    skipBits rd cells.length
    pure { psr := psr, cp := cp, ll := ll }
  | 4 => do
    let psr ← readCellsQ rd 15 (fun raw => (toSign 15 raw : ℚ) * (1 / 2 ^ 24)) cells
    let cp ← readCellsQ rd 22 (fun raw => (toSign 22 raw : ℚ) * (1 / 2 ^ 29)) cells
    let ll ← readCellsN rd 4 cells
    skipBits rd cells.length
    let cnr ← readCellsQ rd 6 (fun raw => (raw : ℚ)) cells
    pure { psr := psr, cp := cp, ll := ll, cnr := cnr }
  | 5 => do
    let psr ← readCellsQ rd 15 (fun raw => (toSign 15 raw : ℚ) * (1 / 2 ^ 24)) cells
    let cp ← readCellsQ rd 22 (fun raw => (toSign 22 raw : ℚ) * (1 / 2 ^ 29)) cells
    let ll ← readCellsN rd 4 cells
    skipBits rd cells.length
    let cnr ← readCellsQ rd 6 (fun raw => (raw : ℚ) * 1) cells
    let dop ← readCellsQ rd 15 (fun raw => (toSign 15 raw : ℚ) * 0.0001) cells
    pure { psr := psr, cp := cp, ll := ll, cnr := cnr, dop := dop }
  | 6 => do
    let psr ← readCellsQ rd 20 (fun raw => (toSign 20 raw : ℚ) * (1 / 2 ^ 29)) cells
    let cp ← readCellsQ rd 24 (fun raw => (toSign 24 raw : ℚ) * (1 / 2 ^ 31)) cells
    let ll ← readCellsN rd 10 cells
    skipBits rd cells.length
    let cnr ← readCellsQ rd 10 (fun raw => (raw : ℚ) * (1 / 2 ^ 4)) cells
    pure { psr := psr, cp := cp, ll := ll, cnr := cnr }
  | 7 => do
    let psr ← readCellsQ rd 20 (fun raw => (toSign 20 raw : ℚ) * (1 / 2 ^ 29)) cells
    let cp ← readCellsQ rd 24 (fun raw => (toSign 24 raw : ℚ) * (1 / 2 ^ 31)) cells
    let ll ← readCellsN rd 10 cells
    skipBits rd cells.length
    let cnr ← readCellsQ rd 10 (fun raw => (raw : ℚ) * (1 / 2 ^ 4)) cells
    let dop ← readCellsQ rd 15 (fun raw => (toSign 15 raw : ℚ) * 0.0001) cells
    pure { psr := psr, cp := cp, ll := ll, cnr := cnr, dop := dop }
  | _ => pure {}

/-- The per-cell `t_frqObs` assembly of the cell walk
(RTCM3Decoder.cpp:764-876), by message subtype.  Sentinels: a fine
pseudorange at or below `-2^-10`, a fine phase at or below `-2^-8`,
and a Doppler at or below `-1.6384` leave the field invalid. -/
def msmFrqObs (ctx : Ctx) (type : Nat) (wl : ℚ) (rnx : String)
    (psr cp : ℚ) (ll : Nat) (cnr dop rrmod : ℚ) (rrint : Nat) (rdop : ℤ) : FrqObs :=
  let f0 : FrqObs := { rnxType2ch := rnx }
  match type % 10 with
  | 1 =>
    if psr > -(1 / 2 ^ 10) then
      { f0 with
        code := psr * LIGHTSPEED / 1000 + rrmod * LIGHTSPEED / 1000
        codeValid := true }
    else f0
  | 2 =>
    if cp > -(1 / 2 ^ 8) then
      { f0 with
        phase := cp * LIGHTSPEED / 1000 / wl + rrmod * LIGHTSPEED / 1000 / wl
        phaseValid := true
        lockTime := ctx.lti2sec type ll
        lockTimeValid := decide (0 ≤ ctx.lti2sec type ll)
        lockTimeIndicator := ll }
    else f0
  | 3 =>
    let f1 :=
      if psr > -(1 / 2 ^ 10) then
        { f0 with
          code := psr * LIGHTSPEED / 1000 + rrmod * LIGHTSPEED / 1000
          codeValid := true }
      else f0
    if cp > -(1 / 2 ^ 8) then
      { f1 with
        phase := cp * LIGHTSPEED / 1000 / wl + rrmod * LIGHTSPEED / 1000 / wl
        phaseValid := true
        lockTime := ctx.lti2sec type ll
        lockTimeValid := decide (0 ≤ ctx.lti2sec type ll)
        lockTimeIndicator := ll }
    else f1
  | 4 =>
    let f1 :=
      if psr > -(1 / 2 ^ 10) then
        { f0 with
          code := psr * LIGHTSPEED / 1000 + (rrmod + (rrint : ℚ)) * LIGHTSPEED / 1000
          codeValid := true }
      else f0
    let f2 :=
      if cp > -(1 / 2 ^ 8) then
        { f1 with
          phase := cp * LIGHTSPEED / 1000 / wl + (rrmod + (rrint : ℚ)) * LIGHTSPEED / 1000 / wl
          phaseValid := true
          lockTime := ctx.lti2sec type ll
          lockTimeValid := decide (0 ≤ ctx.lti2sec type ll)
          lockTimeIndicator := ll }
      else f1
    { f2 with snr := cnr, snrValid := true }
  | 5 =>
    let f1 :=
      if psr > -(1 / 2 ^ 10) then
        { f0 with
          code := psr * LIGHTSPEED / 1000 + (rrmod + (rrint : ℚ)) * LIGHTSPEED / 1000
          codeValid := true }
      else f0
    let f2 :=
      if cp > -(1 / 2 ^ 8) then
        { f1 with
          phase := cp * LIGHTSPEED / 1000 / wl + (rrmod + (rrint : ℚ)) * LIGHTSPEED / 1000 / wl
          phaseValid := true
          lockTime := ctx.lti2sec type ll
          lockTimeValid := decide (0 ≤ ctx.lti2sec type ll)
          lockTimeIndicator := ll }
      else f1
    let f3 := { f2 with snr := cnr, snrValid := true }
    if dop > -1.6384 then
      { f3 with doppler := -(dop + (rdop : ℚ)) / wl, dopplerValid := true }
    else f3
  | 6 =>
    let f1 :=
      if psr > -(1 / 2 ^ 10) then
        { f0 with
          code := psr * LIGHTSPEED / 1000 + (rrmod + (rrint : ℚ)) * LIGHTSPEED / 1000
          codeValid := true }
      else f0
    let f2 :=
      if cp > -(1 / 2 ^ 8) then
        { f1 with
          phase := cp * LIGHTSPEED / 1000 / wl + (rrmod + (rrint : ℚ)) * LIGHTSPEED / 1000 / wl
          phaseValid := true
          lockTime := ctx.lti2sec type ll
          lockTimeValid := decide (0 ≤ ctx.lti2sec type ll)
          lockTimeIndicator := ll }
      else f1
    { f2 with snr := cnr, snrValid := true }
  | 7 =>
    let f1 :=
      if psr > -(1 / 2 ^ 10) then
        { f0 with
          code := psr * LIGHTSPEED / 1000 + (rrmod + (rrint : ℚ)) * LIGHTSPEED / 1000
          codeValid := true }
      else f0
    let f2 :=
      if cp > -(1 / 2 ^ 8) then
        { f1 with
          phase := cp * LIGHTSPEED / 1000 / wl + (rrmod + (rrint : ℚ)) * LIGHTSPEED / 1000 / wl
          phaseValid := true
          lockTime := ctx.lti2sec type ll
          lockTimeValid := decide (0 ≤ ctx.lti2sec type ll)
          lockTimeIndicator := ll }
      else f1
    let f3 := { f2 with snr := cnr, snrValid := true }
    if dop > -1.6384 then
      { f3 with doppler := -(dop + (rdop : ℚ)) / wl, dopplerValid := true }
    else f3
  | _ => f0

/-- One masked cell of the walk (RTCM3Decoder.cpp:720-878): resolve
the signal's `CodeData` (for GLONASS through `msmGloCodeData`), and
build the `t_frqObs` when the resolved code is non-null —
`if (cd.code)` — else drop the cell. -/
def msmCellObs (ctx : Ctx) (sys : Char) (type : Nat) (sat : MsmSat) (tbl : List ℤ)
    (nsat i jv : Nat) (sig : MsmSig) (count : Nat) : Option FrqObs × List ℤ :=
  let cd0 := codeDataOf sys (32 - jv - 1)
  let (cd, tbl') :=
    if sys = 'R' then msmGloCodeData tbl (extsatAt sat nsat) (64 - i - 1) cd0
    else (cd0, tbl)
  match cd.code with
  | none => (none, tbl')
  | some rnx =>
    (some (msmFrqObs ctx type cd.wl rnx (cellQ sig.psr count) (cellQ sig.cp count)
      (cellN sig.ll count) (cellQ sig.cnr count) (cellQ sig.dop count)
      (sat.rrmod.getD nsat 0) (sat.rrint.getD nsat 0) (sat.rdop.getD nsat 0)), tbl')

/-- The running state of the cell walk (RTCM3Decoder.cpp:696-884):
satellite cursor `i` (starts at 64), signal cursor `j` (`none` is the
C sentinel `-1`), the running satellite-array index
`nsat` (the decremented `numsat`), the satellite under construction,
the GLONASS table, and the finished satellites. -/
structure WalkSt where
  i : Nat
  j : Option Nat
  nsat : Nat
  cur : SatObs
  tbl : List ℤ
  acc : List SatObs

/-- One iteration (one `count`) of the cell walk. -/
def msmWalkStep (ctx : Ctx) (sys : Char) (type : Nat) (t : TimeVal)
    (satmask sigmask cellmask : Nat) (sat : MsmSat) (sig : MsmSig)
    (count : Nat) (w : WalkSt) : WalkSt :=
  let j₀ :=
    match w.j with
    | some jv => prevSetBit sigmask jv
    | none => none
  let w₁ :=
    match j₀ with
    | some jv => { w with j := some jv }
    | none =>
      -- next satellite (for mask-consistent frames the searches succeed)
      let i' := (prevSetBit satmask w.i).getD 0
      let acc' := if w.cur.obs.length > 0 then w.acc ++ [w.cur] else w.acc
      { i := i', j := prevSetBit sigmask 32, nsat := w.nsat - 1,
        cur := { prn := msmPrn sys i', time := t, type := type, obs := [] },
        tbl := w.tbl, acc := acc' }
  if cellmask >>> count % 2 = 1 then
    match msmCellObs ctx sys type sat w₁.tbl w₁.nsat w₁.i (w₁.j.getD 0) sig count with
    | (none, tbl') => { w₁ with tbl := tbl' }
    | (some f, tbl') =>
      { w₁ with tbl := tbl', cur := { w₁.cur with obs := w₁.cur.obs ++ [f] } }
  else w₁

/-- The cell walk over the descending cell indices. -/
def msmWalk (ctx : Ctx) (sys : Char) (type : Nat) (t : TimeVal)
    (satmask sigmask cellmask : Nat) (sat : MsmSat) (sig : MsmSig) :
    List Nat → WalkSt → WalkSt
  | [], w => w
  | count :: rest, w =>
    msmWalk ctx sys type t satmask sigmask cellmask sat sig rest
      (msmWalkStep ctx sys type t satmask sigmask cellmask sat sig count w)

/-- Message number and station id of an MSM header. -/
def msmTypeHeader (rd : Rd) : P Nat := do
  let type ← getBits rd 12
  skipBits rd 12
  pure type

/-- The IOD/session bits, the satellite and signal masks, the cell
mask of width `numSats·numSigs`, and the satellite-data section
(RTCM3Decoder.cpp:543-584). -/
def msmMasksSat (rd : Rd) (subtype : Nat) : P (Nat × Nat × Nat × MsmSat) := do
  skipBits rd (3 + 7 + 2 + 2 + 1 + 3)
  let satmask ← getBits rd 64
  let sigmask ← getBits rd 32
  let cellmask ← getBits rd (popCount64 satmask * popCount64 sigmask)
  let sat ← msmSatData rd subtype (popCount64 satmask)
  pure (satmask, sigmask, cellmask, sat)

/-- `RTCM3Decoder::DecodeRTCM3MSM` (RTCM3Decoder.cpp:462-897).
Result `none` models the `return false` of a bit read running past
the message end; `some b` the final `return decoded`. -/
def decodeRTCM3MSM (ctx : Ctx) (rd : Rd) (st : DecSt) : DecSt × Option Bool :=
  match msmTypeHeader rd 0 with
  | none => (st, none)
  | some (type, pos₀) =>
    match msmSys type with
    | none => (st, some false)
    | some sys =>
      match msmTime rd sys pos₀ with
      | none => (st, none)
      | some (t, pos₁) =>
        let (st₁, decoded₁) :=
          if epochChanged st.curTime t then (flushObs st, true) else (st, false)
        let st₁ := { st₁ with curTime := some t }
        match getBits rd 1 pos₁ with
        | none => (st₁, none)
        | some (syncf, pos₂) =>
          if type ≤ 1137 ∧ 4 ≤ type % 10 ∧ type % 10 ≤ 7 then
            match msmMasksSat rd (type % 10) pos₂ with
          | none => (st₁, none)
          | some ((satmask, sigmask, cellmask, sat), pos₃) =>
            let numsat := popCount64 satmask
            let numcells := numsat * popCount64 sigmask
            if numcells ≤ 96 then
              let cells := (List.range numcells).reverse.filter
                (fun c => cellmask >>> c % 2 = 1)
              match msmSignalData rd (type % 10) cells pos₃ with
              | none => (st₁, none)
              | some (sig, _) =>
                let w := msmWalk ctx sys type t satmask sigmask cellmask sat sig
                  (List.range numcells).reverse
                  { i := 64, j := none, nsat := numsat,
                    cur := { prn := (sys, 0), time := t, type := type, obs := [] },
                    tbl := st₁.gloFreq, acc := [] }
                let acc := if w.cur.obs.length > 0 then w.acc ++ [w.cur] else w.acc
                let st₂ := { st₁ with curList := st₁.curList ++ acc, gloFreq := w.tbl }
                obsSyncFinish st₂ syncf decoded₁
            else
              obsSyncFinish st₁ syncf decoded₁
          else if type % 10 < 4 then
            obsSyncFinish { st₁ with diags := st₁.diags + 1 } syncf decoded₁
          else
            obsSyncFinish st₁ syncf decoded₁

/-! ## Ephemeris decoders (RTCM3Decoder.cpp:1023-1643)

Each is a size gate around a pure parse.  The parsers read every field
in source order; a failed validation (`return false` in C) or a read
past the message end both yield `none`, and the decoder state is
untouched — the C functions build the record in a local and only emit
on full success.  `R2R_PI` is the `gnss.h` constant used as π in the
scale factors. -/

def R2R_PI : ℚ := 3.1415926535898

/-- Parse failure / semantic rejection (`return false`). -/
def pfail {α : Type} : P α := fun _ => none

/-- `NormFrobenius() < 1.0` over a 3-vector, as the equivalent
square-sum comparison. -/
def norm2 (x y z : ℚ) : ℚ := x * x + y * y + z * z

/-- The TOE-week validation shared by the GPS-shaped decoders
(RTCM3Decoder.cpp:1069-1079 etc.): `TOEweek` comes from the wall
clock (`bncTime::gpsw()`), the broadcast 10-bit week is lifted by
`floor(gpsw/1024)` rollovers, and a distance above 1 week rejects. -/
def weekCheckFails (gpsw week : Nat) : Prop :=
  gpsw > week + (gpsw / 1024) * 1024 + 1 ∨ gpsw + 1 < week + (gpsw / 1024) * 1024

instance (gpsw week : Nat) : Decidable (weekCheckFails gpsw week) := by
  unfold weekCheckFails
  infer_instance

/-- Field reads of message 1019 (`DecodeGPSEphemeris`,
RTCM3Decoder.cpp:1023-1099). -/
def parseEph1019 (ctx : Ctx) (rd : Rd) : P EphGPS := do
  skipBits rd 12
  let prn ← getBits rd 6
  let week ← getBits rd 10
  let uraIndex ← getBits rd 4
  let L2Codes ← getBits rd 2
  let IDOT ← getFloatSign rd 14 (R2R_PI / 2 ^ 30 / 2 ^ 13)
  let IODE ← getBits rd 8
  let toc ← getBits rd 16
  let clockDriftrate ← getFloatSign rd 8 (1 / 2 ^ 30 / 2 ^ 25)
  let clockDrift ← getFloatSign rd 16 (1 / 2 ^ 30 / 2 ^ 13)
  let clockBias ← getFloatSign rd 22 (1 / 2 ^ 30 / 2 ^ 1)
  let IODC ← getBits rd 10
  let Crs ← getFloatSign rd 16 (1 / 2 ^ 5)
  let DeltaN ← getFloatSign rd 16 (R2R_PI / 2 ^ 30 / 2 ^ 13)
  let M0 ← getFloatSign rd 32 (R2R_PI / 2 ^ 30 / 2 ^ 1)
  let Cuc ← getFloatSign rd 16 (1 / 2 ^ 29)
  let ecc ← getFloat rd 32 (1 / 2 ^ 30 / 2 ^ 3)
  let Cus ← getFloatSign rd 16 (1 / 2 ^ 29)
  let sqrtA ← getFloat rd 32 (1 / 2 ^ 19)
  if sqrtA < 1000 then pfail else pure ()
  let toe ← getBits rd 16
  if weekCheckFails ctx.gpsw week then pfail else pure ()
  let Cic ← getFloatSign rd 16 (1 / 2 ^ 29)
  let OMEGA0 ← getFloatSign rd 32 (R2R_PI / 2 ^ 30 / 2 ^ 1)
  let Cis ← getFloatSign rd 16 (1 / 2 ^ 29)
  let i0 ← getFloatSign rd 32 (R2R_PI / 2 ^ 30 / 2 ^ 1)
  let Crc ← getFloatSign rd 16 (1 / 2 ^ 5)
  let omega ← getFloatSign rd 32 (R2R_PI / 2 ^ 30 / 2 ^ 1)
  let OMEGADOT ← getFloatSign rd 24 (R2R_PI / 2 ^ 30 / 2 ^ 13)
  let TGD ← getFloatSign rd 8 (1 / 2 ^ 30 / 2 ^ 1)
  let health ← getBits rd 6
  let L2PFlag ← getBits rd 1
  let fitIntervalFlag ← getBits rd 1
  pure { prn := ('G', prn), uraIndex := uraIndex, L2Codes := L2Codes, IDOT := IDOT,
         IODE := IODE, TOC := .gps ((toc <<< 4) * 1000),
         clockDriftrate := clockDriftrate, clockDrift := clockDrift,
         clockBias := clockBias, IODC := IODC, Crs := Crs, DeltaN := DeltaN,
         M0 := M0, Cuc := Cuc, ecc := ecc, Cus := Cus, sqrtA := sqrtA,
         TOEsec := toe <<< 4, TOEweek := ctx.gpsw, Cic := Cic, OMEGA0 := OMEGA0,
         Cis := Cis, i0 := i0, Crc := Crc, omega := omega, OMEGADOT := OMEGADOT,
         TGD := TGD, health := health, L2PFlag := L2PFlag,
         fitIntervalFlag := fitIntervalFlag }

/-- `RTCM3Decoder::DecodeGPSEphemeris` (message 1019): exact block
size 67, emit via `newGPSEph` on success. -/
def decodeGPSEphemeris (ctx : Ctx) (rd : Rd) (st : DecSt) : DecSt × Bool :=
  if rd.len = 67 then
    match parseEph1019 ctx rd 0 with
    | some (e, _) => ({ st with ephs := st.ephs ++ [.gpsEph e] }, true)
    | none => (st, false)
  else (st, false)

/-- Field reads of message 1044 (`DecodeQZSSEphemeris`,
RTCM3Decoder.cpp:1229-1310). -/
def parseEph1044 (ctx : Ctx) (rd : Rd) : P EphGPS := do
  skipBits rd 12
  let prn ← getBits rd 4
  let toc ← getBits rd 16
  let clockDriftrate ← getFloatSign rd 8 (1 / 2 ^ 30 / 2 ^ 25)
  let clockDrift ← getFloatSign rd 16 (1 / 2 ^ 30 / 2 ^ 13)
  let clockBias ← getFloatSign rd 22 (1 / 2 ^ 30 / 2 ^ 1)
  let IODE ← getBits rd 8
  let Crs ← getFloatSign rd 16 (1 / 2 ^ 5)
  let DeltaN ← getFloatSign rd 16 (R2R_PI / 2 ^ 30 / 2 ^ 13)
  let M0 ← getFloatSign rd 32 (R2R_PI / 2 ^ 30 / 2 ^ 1)
  let Cuc ← getFloatSign rd 16 (1 / 2 ^ 29)
  let ecc ← getFloat rd 32 (1 / 2 ^ 30 / 2 ^ 3)
  let Cus ← getFloatSign rd 16 (1 / 2 ^ 29)
  let sqrtA ← getFloat rd 32 (1 / 2 ^ 19)
  if sqrtA < 1000 then pfail else pure ()
  let toe ← getBits rd 16
  let Cic ← getFloatSign rd 16 (1 / 2 ^ 29)
  let OMEGA0 ← getFloatSign rd 32 (R2R_PI / 2 ^ 30 / 2 ^ 1)
  let Cis ← getFloatSign rd 16 (1 / 2 ^ 29)
  let i0 ← getFloatSign rd 32 (R2R_PI / 2 ^ 30 / 2 ^ 1)
  let Crc ← getFloatSign rd 16 (1 / 2 ^ 5)
  let omega ← getFloatSign rd 32 (R2R_PI / 2 ^ 30 / 2 ^ 1)
  let OMEGADOT ← getFloatSign rd 24 (R2R_PI / 2 ^ 30 / 2 ^ 13)
  let IDOT ← getFloatSign rd 14 (R2R_PI / 2 ^ 30 / 2 ^ 13)
  let L2Codes ← getBits rd 2
  let week ← getBits rd 10
  if weekCheckFails ctx.gpsw week then pfail else pure ()
  let uraIndex ← getBits rd 4
  let health ← getBits rd 6
  let TGD ← getFloatSign rd 8 (1 / 2 ^ 30 / 2 ^ 1)
  let IODC ← getBits rd 10
  let fitIntervalFlag ← getBits rd 1
  pure { prn := ('J', prn), uraIndex := uraIndex, L2Codes := L2Codes, IDOT := IDOT,
         IODE := IODE, TOC := .gps ((toc <<< 4) * 1000),
         clockDriftrate := clockDriftrate, clockDrift := clockDrift,
         clockBias := clockBias, IODC := IODC, Crs := Crs, DeltaN := DeltaN,
         M0 := M0, Cuc := Cuc, ecc := ecc, Cus := Cus, sqrtA := sqrtA,
         TOEsec := toe <<< 4, TOEweek := ctx.gpsw, Cic := Cic, OMEGA0 := OMEGA0,
         Cis := Cis, i0 := i0, Crc := Crc, omega := omega, OMEGADOT := OMEGADOT,
         TGD := TGD, health := health, fitIntervalFlag := fitIntervalFlag }

/-- `RTCM3Decoder::DecodeQZSSEphemeris` (message 1044): exact block
size 67. -/
def decodeQZSSEphemeris (ctx : Ctx) (rd : Rd) (st : DecSt) : DecSt × Bool :=
  if rd.len = 67 then
    match parseEph1044 ctx rd 0 with
    | some (e, _) => ({ st with ephs := st.ephs ++ [.gpsEph e] }, true)
    | none => (st, false)
  else (st, false)

/-- Field reads of message 1041 (`DecodeIRNSSEphemeris`,
RTCM3Decoder.cpp:1314-1402). -/
def parseEph1041 (ctx : Ctx) (rd : Rd) : P EphGPS := do
  skipBits rd 12
  let prn ← getBits rd 6
  let week ← getBits rd 10
  let clockBias ← getFloatSign rd 22 (1 / 2 ^ 30 / 2 ^ 1)
  let clockDrift ← getFloatSign rd 16 (1 / 2 ^ 30 / 2 ^ 13)
  let clockDriftrate ← getFloatSign rd 8 (1 / 2 ^ 30 / 2 ^ 25)
  let uraIndex ← getBits rd 4
  let toc ← getBits rd 16
  let TGD ← getFloatSign rd 8 (1 / 2 ^ 30 / 2 ^ 1)
  let DeltaN ← getFloatSign rd 22 (R2R_PI / 2 ^ 30 / 2 ^ 11)
  let IODE ← getBits rd 8
  skipBits rd 10
  let L5Flag ← getBits rd 1
  let SFlag ← getBits rd 1
  let health :=
    if L5Flag = 0 ∧ SFlag = 0 then 0
    else if L5Flag = 0 ∧ SFlag = 1 then 1
    else if L5Flag = 1 ∧ SFlag = 0 then 2
    else 3
  let Cuc ← getFloatSign rd 15 (1 / 2 ^ 28)
  let Cus ← getFloatSign rd 15 (1 / 2 ^ 28)
  let Cic ← getFloatSign rd 15 (1 / 2 ^ 28)
  let Cis ← getFloatSign rd 15 (1 / 2 ^ 28)
  let Crc ← getFloatSign rd 15 (1 / 2 ^ 4)
  let Crs ← getFloatSign rd 15 (1 / 2 ^ 4)
  let IDOT ← getFloatSign rd 14 (R2R_PI / 2 ^ 30 / 2 ^ 13)
  skipBits rd 2
  let M0 ← getFloatSign rd 32 (R2R_PI / 2 ^ 30 / 2 ^ 1)
  let toe ← getBits rd 16
  if weekCheckFails ctx.gpsw week then pfail else pure ()
  let ecc ← getFloat rd 32 (1 / 2 ^ 30 / 2 ^ 3)
  let sqrtA ← getFloat rd 32 (1 / 2 ^ 19)
  if sqrtA < 1000 then pfail else pure ()
  let OMEGA0 ← getFloatSign rd 32 (R2R_PI / 2 ^ 30 / 2 ^ 1)
  let omega ← getFloatSign rd 32 (R2R_PI / 2 ^ 30 / 2 ^ 1)
  let OMEGADOT ← getFloatSign rd 22 (R2R_PI / 2 ^ 30 / 2 ^ 11)
  let i0 ← getFloatSign rd 32 (R2R_PI / 2 ^ 30 / 2 ^ 1)
  skipBits rd 2
  pure { prn := ('I', prn), uraIndex := uraIndex, IDOT := IDOT, IODE := IODE,
         IODC := IODE, TOC := .gps ((toc <<< 4) * 1000),
         clockDriftrate := clockDriftrate, clockDrift := clockDrift,
         clockBias := clockBias, Crs := Crs, DeltaN := DeltaN, M0 := M0,
         Cuc := Cuc, ecc := ecc, Cus := Cus, Cic := Cic, Cis := Cis, Crc := Crc,
         sqrtA := sqrtA, TOEsec := toe <<< 4, TOEweek := ctx.gpsw,
         OMEGA0 := OMEGA0, i0 := i0, omega := omega, OMEGADOT := OMEGADOT,
         TGD := TGD, health := health }

/-- `RTCM3Decoder::DecodeIRNSSEphemeris` (message 1041): exact block
size 67. -/
def decodeIRNSSEphemeris (ctx : Ctx) (rd : Rd) (st : DecSt) : DecSt × Bool :=
  if rd.len = 67 then
    match parseEph1041 ctx rd 0 with
    | some (e, _) => ({ st with ephs := st.ephs ++ [.gpsEph e] }, true)
    | none => (st, false)
  else (st, false)

/-- The SBAS PRN assignment of the 1043 decoder
(RTCM3Decoder.cpp:1421-1422): raw 6-bit number plus 20. -/
def sbasEphPrn (i : Nat) : Char × Nat := ('S', 20 + i)

/-- Field reads of message 1043 (`DecodeSBASEphemeris`,
RTCM3Decoder.cpp:1406-1458). -/
def parseEph1043 (rd : Rd) : P EphSBAS := do
  skipBits rd 12
  let prn ← getBits rd 6
  let IODN ← getBits rd 8
  let toc ← getBits rd 13
  let uraIndex ← getBits rd 4
  let xPos ← getFloatSign rd 30 0.08
  let yPos ← getFloatSign rd 30 0.08
  let zPos ← getFloatSign rd 25 0.4
  if norm2 xPos yPos zPos < 1 then pfail else pure ()
  let xVelocity ← getFloatSign rd 17 0.000625
  let yVelocity ← getFloatSign rd 17 0.000625
  let zVelocity ← getFloatSign rd 18 0.004
  let xAcceleration ← getFloatSign rd 10 0.0000125
  let yAcceleration ← getFloatSign rd 10 0.0000125
  let zAcceleration ← getFloatSign rd 10 0.0000625
  let agf0 ← getFloatSign rd 12 (1 / 2 ^ 30 / 2 ^ 1)
  let agf1 ← getFloatSign rd 8 (1 / 2 ^ 30 / 2 ^ 10)
  pure { prn := sbasEphPrn prn, IODN := IODN, TOCtod := toc <<< 4,
         uraIndex := uraIndex, xPos := xPos, yPos := yPos, zPos := zPos,
         xVelocity := xVelocity, yVelocity := yVelocity, zVelocity := zVelocity,
         xAcceleration := xAcceleration, yAcceleration := yAcceleration,
         zAcceleration := zAcceleration, agf0 := agf0, agf1 := agf1 }

/-- `RTCM3Decoder::DecodeSBASEphemeris` (message 1043): exact block
size 35. -/
def decodeSBASEphemeris (rd : Rd) (st : DecSt) : DecSt × Bool :=
  if rd.len = 35 then
    match parseEph1043 rd 0 with
    | some (e, _) => ({ st with ephs := st.ephs ++ [.sbasEph e] }, true)
    | none => (st, false)
  else (st, false)

/-- Field reads of messages 1045/1046 after the message number
(`DecodeGalileoEphemeris`, RTCM3Decoder.cpp:1462-1566); `inav` is
true for 1046. -/
def parseEphGal (rd : Rd) (inav : Bool) : P EphGal := fun pos => (do
  let prn ← getBits rd 6
  let TOEweek ← getBits rd 12
  let IODnav ← getBits rd 10
  let SISAIndex ← getBits rd 8
  let IDOT ← getFloatSign rd 14 (R2R_PI / 2 ^ 30 / 2 ^ 13)
  let toc ← getBitsFactor rd 14 60
  let clockDriftrate ← getFloatSign rd 6 (1 / 2 ^ 30 / 2 ^ 29)
  let clockDrift ← getFloatSign rd 21 (1 / 2 ^ 30 / 2 ^ 16)
  let clockBias ← getFloatSign rd 31 (1 / 2 ^ 30 / 2 ^ 4)
  let Crs ← getFloatSign rd 16 (1 / 2 ^ 5)
  let DeltaN ← getFloatSign rd 16 (R2R_PI / 2 ^ 30 / 2 ^ 13)
  let M0 ← getFloatSign rd 32 (R2R_PI / 2 ^ 30 / 2 ^ 1)
  let Cuc ← getFloatSign rd 16 (1 / 2 ^ 29)
  let ecc ← getFloat rd 32 (1 / 2 ^ 30 / 2 ^ 3)
  let Cus ← getFloatSign rd 16 (1 / 2 ^ 29)
  let sqrtA ← getFloat rd 32 (1 / 2 ^ 19)
  let _ ← getBitsFactor rd 14 60
  -- `eph._TOEsec` is immediately overwritten with `eph._TOC.gpssec()`
  let Cic ← getFloatSign rd 16 (1 / 2 ^ 29)
  let OMEGA0 ← getFloatSign rd 32 (R2R_PI / 2 ^ 30 / 2 ^ 1)
  let Cis ← getFloatSign rd 16 (1 / 2 ^ 29)
  let i0 ← getFloatSign rd 32 (R2R_PI / 2 ^ 30 / 2 ^ 1)
  let Crc ← getFloatSign rd 16 (1 / 2 ^ 5)
  let omega ← getFloatSign rd 32 (R2R_PI / 2 ^ 30 / 2 ^ 1)
  let OMEGADOT ← getFloatSign rd 24 (R2R_PI / 2 ^ 30 / 2 ^ 13)
  let BGD15A ← getFloatSign rd 10 (1 / 2 ^ 30 / 2 ^ 2)
  let e0 : EphGal :=
    { prn := ('E', prn), inav := inav, fnav := !inav, TOEweek := TOEweek,
      IODnav := IODnav, SISAIndex := SISAIndex, IDOT := IDOT, TOCsec := toc,
      clockDriftrate := clockDriftrate, clockDrift := clockDrift,
      clockBias := clockBias, Crs := Crs, DeltaN := DeltaN, M0 := M0,
      Cuc := Cuc, ecc := ecc, Cus := Cus, sqrtA := sqrtA, TOEsec := toc,
      Cic := Cic, OMEGA0 := OMEGA0, Cis := Cis, i0 := i0, Crc := Crc,
      omega := omega, OMEGADOT := OMEGADOT, BGD15A := BGD15A }
  let e1 ←
    if inav then do
      let BGD15B ← getFloatSign rd 10 (1 / 2 ^ 30 / 2 ^ 2)
      let E5bHS ← getBits rd 2
      let e5bDataInValid ← getBits rd 1
      let E1bHS ← getBits rd 2
      let e1DataInValid ← getBits rd 1
      if E5bHS ≠ E1bHS then pfail else pure ()
      if (BGD15A = 0 ∧ |BGD15B| > 1e-9) ∨ (BGD15B = 0 ∧ |BGD15A| > 1e-9)
        then pfail else pure ()
      pure { e0 with BGD15B := BGD15B, E5bHS := E5bHS,
                     e5bDataInValid := e5bDataInValid, E1bHS := E1bHS,
                     e1DataInValid := e1DataInValid }
    else do
      let E5aHS ← getBits rd 2
      let e5aDataInValid ← getBits rd 1
      pure { e0 with E5aHS := E5aHS, e5aDataInValid := e5aDataInValid }
  if sqrtA < 1000 then pfail else pure ()
  pure e1) pos

/-- `RTCM3Decoder::DecodeGalileoEphemeris` (messages 1045/1046):
unlike the other ephemeris decoders, the size gate tests the size
*after* `size -= 6`, i.e. the payload length: 61 for 1046 (I/NAV) and
60 for 1045 (F/NAV). -/
def decodeGalileoEphemeris (rd : Rd) (st : DecSt) : DecSt × Bool :=
  match getBits rd 12 0 with
  | none => (st, false)
  | some (i, pos) =>
    if (i = 1046 ∧ rd.len - 6 = 61) ∨ (i = 1045 ∧ rd.len - 6 = 60) then
      match parseEphGal rd (i = 1046) pos with
      | some (e, _) => ({ st with ephs := st.ephs ++ [.galEph e] }, true)
      | none => (st, false)
    else (st, false)

/-- Field reads of message 1042 (`DecodeBDSEphemeris`,
RTCM3Decoder.cpp:1570-1643).  The D1/D2 `navType` split compares `i0`
with `10/180·π` using the C `M_PI`; it only labels the record and is
not modelled. -/
def parseEph1042 (rd : Rd) : P EphBDS := do
  skipBits rd 12
  let prn ← getBits rd 6
  let BDTweek ← getBits rd 13
  let uraIndex ← getBits rd 4
  let IDOT ← getFloatSign rd 14 (R2R_PI / 2 ^ 30 / 2 ^ 13)
  let AODE ← getBits rd 5
  let toc ← getBits rd 17
  let clockDriftrate ← getFloatSign rd 11 (1 / 2 ^ 30 / 2 ^ 30 / 2 ^ 6)
  let clockDrift ← getFloatSign rd 22 (1 / 2 ^ 30 / 2 ^ 20)
  let clockBias ← getFloatSign rd 24 (1 / 2 ^ 30 / 2 ^ 3)
  let AODC ← getBits rd 5
  let Crs ← getFloatSign rd 18 (1 / 2 ^ 6)
  let DeltaN ← getFloatSign rd 16 (R2R_PI / 2 ^ 30 / 2 ^ 13)
  let M0 ← getFloatSign rd 32 (R2R_PI / 2 ^ 30 / 2 ^ 1)
  let Cuc ← getFloatSign rd 18 (1 / 2 ^ 30 / 2 ^ 1)
  let ecc ← getFloat rd 32 (1 / 2 ^ 30 / 2 ^ 3)
  let Cus ← getFloatSign rd 18 (1 / 2 ^ 30 / 2 ^ 1)
  let sqrtA ← getFloat rd 32 (1 / 2 ^ 19)
  if sqrtA < 1000 then pfail else pure ()
  let toe ← getBits rd 17
  let Cic ← getFloatSign rd 18 (1 / 2 ^ 30 / 2 ^ 1)
  let OMEGA0 ← getFloatSign rd 32 (R2R_PI / 2 ^ 30 / 2 ^ 1)
  let Cis ← getFloatSign rd 18 (1 / 2 ^ 30 / 2 ^ 1)
  let i0 ← getFloatSign rd 32 (R2R_PI / 2 ^ 30 / 2 ^ 1)
  let Crc ← getFloatSign rd 18 (1 / 2 ^ 6)
  let omega ← getFloatSign rd 32 (R2R_PI / 2 ^ 30 / 2 ^ 1)
  let OMEGADOT ← getFloatSign rd 24 (R2R_PI / 2 ^ 30 / 2 ^ 13)
  let TGD1 ← getFloatSign rd 10 0.0000000001
  let TGD2 ← getFloatSign rd 10 0.0000000001
  let SatH1 ← getBits rd 1
  pure { prn := ('C', prn), BDTweek := BDTweek, uraIndex := uraIndex,
         IDOT := IDOT, AODE := AODE, TOCraw := toc <<< 3,
         clockDriftrate := clockDriftrate, clockDrift := clockDrift,
         clockBias := clockBias, AODC := AODC, Crs := Crs, DeltaN := DeltaN,
         M0 := M0, Cuc := Cuc, ecc := ecc, Cus := Cus, sqrtA := sqrtA,
         TOEsec := toe <<< 3, Cic := Cic, OMEGA0 := OMEGA0, Cis := Cis,
         i0 := i0, Crc := Crc, omega := omega, OMEGADOT := OMEGADOT,
         TGD1 := TGD1, TGD2 := TGD2, SatH1 := SatH1 }

/-- `RTCM3Decoder::DecodeBDSEphemeris` (message 1042): exact block
size 70. -/
def decodeBDSEphemeris (rd : Rd) (st : DecSt) : DecSt × Bool :=
  if rd.len = 70 then
    match parseEph1042 rd 0 with
    | some (e, _) => ({ st with ephs := st.ephs ++ [.bdsEph e] }, true)
    | none => (st, false)
  else (st, false)

/-- Field reads of message 1020 (`DecodeGLONASSEphemeris`,
RTCM3Decoder.cpp:1103-1225), returning the record together with the
raw 6-bit satellite number for the `GLOFreq` store that follows on
success.  Leap seconds and the civil date (`gnumleap`, `civil_date`)
are external and only annotate the record. -/
def parseEph1020 (rd : Rd) : P (EphGlo × Nat) := do
  skipBits rd 12
  let sv ← getBits rd 6
  let freqRaw ← getBits rd 5
  let almanacHealth ← getBits rd 1
  let almAvail ← getBits rd 1
  if almAvail = 0 then pfail else pure ()
  let P1 ← getBits rd 2
  let tkh ← getBits rd 5
  let tkm ← getBits rd 6
  let tks ← getBits rd 1
  let tk : ℤ := (tkh : ℤ) * 60 * 60 + (tkm : ℤ) * 60 + (tks : ℤ) * 30
  let tki : ℤ := if tk - 3 * 60 * 60 < 0 then tk - 3 * 60 * 60 + 86400 else tk - 3 * 60 * 60
  let health ← getBits rd 1
  let P2 ← getBits rd 1
  let tb ← getBits rd 7
  let xVelocity ← getFloatSignM rd 24 (1 / 2 ^ 20)
  let xPos ← getFloatSignM rd 27 (1 / 2 ^ 11)
  let xAcceleration ← getFloatSignM rd 5 (1 / 2 ^ 30)
  let yVelocity ← getFloatSignM rd 24 (1 / 2 ^ 20)
  let yPos ← getFloatSignM rd 27 (1 / 2 ^ 11)
  let yAcceleration ← getFloatSignM rd 5 (1 / 2 ^ 30)
  let zVelocity ← getFloatSignM rd 24 (1 / 2 ^ 20)
  let zPos ← getFloatSignM rd 27 (1 / 2 ^ 11)
  let zAcceleration ← getFloatSignM rd 5 (1 / 2 ^ 30)
  let P3 ← getBits rd 1
  let gamma ← getFloatSignM rd 11 (1 / 2 ^ 30 / 2 ^ 10)
  let MP ← getBits rd 2
  let Ml3 ← getBits rd 1
  let tau ← getFloatSignM rd 22 (1 / 2 ^ 30)
  let MDeltaTau ← getFloatSignM rd 5 (1 / 2 ^ 30)
  let E ← getBits rd 5
  let MP4 ← getBits rd 1
  let MFT ← getBits rd 4
  let MNT ← getBits rd 11
  if MNT = 0 then pfail else pure ()
  let MM ← getBits rd 2
  let addData ← getBits rd 1
  if addData = 0 then pfail else pure ()
  let NA ← getBits rd 11
  let tauC ← getFloatSignM rd 32 (1 / 2 ^ 30 / 2 ^ 1)
  let MN4 ← getBits rd 5
  let MTauGPS ← getFloatSignM rd 22 (1 / 2 ^ 30)
  let Ml5 ← getBits rd 1
  if norm2 (xPos * 1000) (yPos * 1000) (zPos * 1000) < 1 then pfail else pure ()
  if norm2 (xVelocity * 1000) (yVelocity * 1000) (zVelocity * 1000) < 1 then pfail
    else pure ()
  pure ({ prn := ('R', sv), frequencyNumber := (freqRaw : ℤ) - 7,
          almanacHealth := almanacHealth, almanacHealthAvailability := almAvail,
          P1 := P1, tki := (tki : ℚ), health := health, P2 := P2,
          TOC := .tk (tb * 15 * 60 * 1000), xVelocity := xVelocity, xPos := xPos,
          xAcceleration := xAcceleration, yVelocity := yVelocity, yPos := yPos,
          yAcceleration := yAcceleration, zVelocity := zVelocity, zPos := zPos,
          zAcceleration := zAcceleration, P3 := P3, gamma := gamma, MP := MP,
          Ml3 := Ml3, tau := tau, MDeltaTau := MDeltaTau, E := E, MP4 := MP4,
          MFT := MFT, MNT := MNT, MM := MM, additionalDataAvailability := addData,
          NA := NA, tauC := tauC, MN4 := MN4, MTauGPS := MTauGPS, Ml5 := Ml5 },
        sv)

/-- `RTCM3Decoder::DecodeGLONASSEphemeris` (message 1020): exact
block size 51; on success stores
`GLOFreq[sv-1] = 100 + frequency_number` and emits. -/
def decodeGLONASSEphemeris (rd : Rd) (st : DecSt) : DecSt × Bool :=
  if rd.len = 51 then
    match parseEph1020 rd 0 with
    | some ((e, sv), _) =>
      let st₁ := gloWrite st ((sv : ℤ) - 1) (100 + e.frequencyNumber)
      ({ st₁ with ephs := st₁.ephs ++ [.gloEph e] }, true)
    | none => (st, false)
  else (st, false)

/-! ## Station-metadata decoders (RTCM3Decoder.cpp:1647-1736)

Their return values are discarded by `Decode` and no claim reads the
metadata lists; the string handling is transcribed structurally (the
duplicate check `strncmp(descriptor, antenna, recnum)` — where
`recnum` is still `-1` for 1007/1008 — is modelled as a whole-string
comparison, which is what the call does for NUL-terminated
descriptors). -/

/-- `RTCM3Decoder::DecodeAntennaReceiver` (messages 1007/1008/1033). -/
def decodeAntennaReceiver (rd : Rd) (st : DecSt) : DecSt × Option Bool :=
  match (do
      let type ← getBits rd 12
      skipBits rd 12
      let ant ← getString rd
      pure (type, ant)) 0 with
  | none => (st, none)
  | some ((type, antnum, antenna), pos₁) =>
    let st₁ :=
      if antnum < 265 ∧ ((st.antType.getLast?.map AntInfo.descriptor) ≠ some antenna) then
        { st with antType := st.antType ++ [{ descriptor := antenna }] }
      else st
    match (do
        skipBits rd 8
        if type = 1008 ∨ type = 1033 then do
          let ser ← getString rd
          pure (some ser)
        else pure none) pos₁ with
    | none => (st₁, none)
    | some (serOpt, pos₂) =>
      let st₂ :=
        match serOpt with
        | some (asn, ser) =>
          if asn < 265 then
            match st₁.antType.getLast? with
            | some last =>
              { st₁ with antType := st₁.antType.dropLast ++ [{ last with serialnumber := ser }] }
            | none => st₁
          else st₁
        | none => st₁
      if type = 1033 then
        match (do
            let rec₁ ← getString rd
            let fw ← getString rd
            let rsn ← getString rd
            pure (rec₁, fw, rsn)) pos₂ with
        | none => (st₂, none)
        | some (((recnum, receiver), (recfirnum, recfirmware), (recsernum, recserialnum)), _) =>
          let st₃ :=
            if recnum < 265 ∧ ((st₂.recType.getLast?.map RecInfo.descriptor) ≠ some receiver) then
              let entry : RecInfo :=
                { descriptor := receiver
                  firmware := if recfirnum < 265 then recfirmware else []
                  serialnumber := if recsernum < 265 then recserialnum else [] }
              { st₂ with recType := st₂.recType ++ [entry] }
            else st₂
          (st₃, some true)
      else (st₂, some true)

/-- `RTCM3Decoder::DecodeAntennaPosition` (messages 1005/1006).  The
C code pushes the `t_antRefPoint` before the reads; a read failure
leaves the partially filled entry in the list, which the model
reproduces by pushing whatever was assembled at the failure point. -/
def decodeAntennaPosition (rd : Rd) (st : DecSt) : DecSt × Option Bool :=
  match getBits rd 12 0 with
  | none => (st, none)
  | some (type, pos₀) =>
    let e0 : AntRefPoint := {}
    match (skipBits rd 22 >>= fun _ => getBitsSign rd 38) pos₀ with
    | none => ({ st with antList := st.antList ++ [e0] }, none)
    | some (x, pos₁) =>
      let e1 := { e0 with xx := (x : ℚ) * 1e-4 }
      match (skipBits rd 2 >>= fun _ => getBitsSign rd 38) pos₁ with
      | none => ({ st with antList := st.antList ++ [e1] }, none)
      | some (y, pos₂) =>
        let e2 := { e1 with yy := (y : ℚ) * 1e-4 }
        match (skipBits rd 2 >>= fun _ => getBitsSign rd 38) pos₂ with
        | none => ({ st with antList := st.antList ++ [e2] }, none)
        | some (z, pos₃) =>
          let e3 := { e2 with zz := (z : ℚ) * 1e-4 }
          if type = 1006 then
            match getBits rd 16 pos₃ with
            | none => ({ st with antList := st.antList ++ [e3] }, none)
            | some (h, _) =>
              let e4 := { e3 with height := (h : ℚ) * 1e-4, heightF := true,
                                  message := type }
              ({ st with antList := st.antList ++ [e4] }, some true)
          else
            ({ st with antList := st.antList ++ [{ e3 with message := type }] }, some true)

/-! ## The framer `RTCM3Decoder::GetMessage` and the entry point
`RTCM3Decoder::Decode` (RTCM3Decoder.cpp:1740-1910) -/

/-- The framer fields of the decoder object: `_Message` (modelled as
the meaningful prefix of length `_MessageSize`), `_SkipBytes`,
`_NeedBytes` and `_BlockSize`. -/
structure FrSt where
  msg : List Nat := []
  skipBytes : Nat := 0
  needBytes : Nat := 0
  blockSize : Nat := 0

/-- Outcome of the scan loop of `GetMessage`
(RTCM3Decoder.cpp:1878-1899): a complete valid frame at offset `m`
with 10-bit length `L`; an incomplete `0xD3` candidate (break with
`_NeedBytes = _BlockSize`, i.e. `L`); or fewer than 3 bytes left at
`m`. -/
inductive ScanOut
  | found (m L : Nat)
  | needMore (m L : Nat)
  | tail (m : Nat)

/-- Fuel-bounded scan loop of `GetMessage` (the fuel, one byte per
step, is never exhausted when it exceeds the buffer length). -/
def getMsgScan : Nat → List Nat → Nat → ScanOut
  | 0, _, m => .tail m
  | fuel + 1, buf, m =>
    if buf.length < m + 3 then .tail m
    else if byteAt buf m ≠ 0xD3 then getMsgScan fuel buf (m + 1)
    else
      let L := blockSizeAt buf m
      if buf.length < m + L + 6 then .needMore m L
      else if crcOkAt buf m L then .found m L
      else getMsgScan fuel buf (m + 1)

/-- `RTCM3Decoder::GetMessage` (RTCM3Decoder.cpp:1871-1910): scan
from `_SkipBytes`, compact the buffer to the reached position, and
return the 12-bit message number — `(m[3] << 4) | (m[4] >> 4)` — when
`_NeedBytes` ended up 0, else 0.  (When an incomplete candidate with
`L = 0` sits at the tail, the C function likewise reports
`_NeedBytes = 0` and returns an id without having validated a frame.)
On the no-candidate exit `_BlockSize` keeps its previous value; its
value is only consumed after a successful scan. -/
def getMessage (fr : FrSt) : FrSt × Nat :=
  match getMsgScan (fr.msg.length + 1) fr.msg fr.skipBytes with
  | .found m L =>
    let msg' := fr.msg.drop m
    ({ msg := msg', skipBytes := L + 6, needBytes := 0, blockSize := L + 6 },
      (byteAt msg' 3) <<< 4 ||| (byteAt msg' 4) >>> 4)
  | .needMore m L =>
    let msg' := fr.msg.drop m
    ({ msg := msg', skipBytes := 0, needBytes := L, blockSize := L },
      if L = 0 then (byteAt msg' 3) <<< 4 ||| (byteAt msg' 4) >>> 4 else 0)
  | .tail m =>
    ({ msg := fr.msg.drop m, skipBytes := 0, needBytes := 3, blockSize := fr.blockSize }, 0)

/-- The per-message dispatch of `Decode` (RTCM3Decoder.cpp:1761-1846):
SSR ranges go to the sub-decoder, 1070-1237 to MSM, the rest through
the `switch`.  Returns the updated state and whether this message set
`decoded = true`. -/
def dispatchMessage (ctx : Ctx) (fr : FrSt) (id : Nat) (st : DecSt) : DecSt × Bool :=
  let rd : Rd := ⟨fr.msg, fr.blockSize⟩
  if (1057 ≤ id ∧ id ≤ 1068) ∨ (1240 ≤ id ∧ id ≤ 1270) ∨ id = 4076 then
    let ok := ctx.ssrDecode id fr.msg fr.blockSize
    (if ok then { st with ssrOk := st.ssrOk + 1 } else st, ok)
  else if 1070 ≤ id ∧ id ≤ 1237 then
    let (st', r) := decodeRTCM3MSM ctx rd st
    (st', r.getD false)
  else
    match id with
    | 1001 | 1003 => ({ st with diags := st.diags + 1 }, false)
    | 1002 | 1004 =>
      let (st', r) := decodeRTCM3GPS ctx rd st
      (st', r.getD false)
    | 1009 | 1011 => ({ st with diags := st.diags + 1 }, false)
    | 1010 | 1012 =>
      let (st', r) := decodeRTCM3GLONASS ctx rd st
      (st', r.getD false)
    | 1019 => decodeGPSEphemeris ctx rd st
    | 1020 => decodeGLONASSEphemeris rd st
    | 1043 => decodeSBASEphemeris rd st
    | 1044 => decodeQZSSEphemeris ctx rd st
    | 1041 => decodeIRNSSEphemeris ctx rd st
    | 1045 | 1046 => decodeGalileoEphemeris rd st
    | 1042 => decodeBDSEphemeris rd st
    | 1007 | 1008 | 1033 => ((decodeAntennaReceiver rd st).1, false)
    | 1005 | 1006 => ((decodeAntennaPosition rd st).1, false)
    | _ => (st, false)

/-- The `while ((id = GetMessage()))` loop of `Decode`
(RTCM3Decoder.cpp:1754-1847), fuel-bounded: the C loop spins forever
when `GetMessage` reports an id without consuming bytes (the
`_NeedBytes = 0` tail quirk above); for every terminating C run the
fuel is not reached. -/
def decodeInner (ctx : Ctx) : Nat → FrSt → DecSt → Bool → FrSt × DecSt × Bool
  | 0, fr, st, dec => (fr, st, dec)
  | fuel + 1, fr, st, dec =>
    let (fr₁, id) := getMessage fr
    if id = 0 then (fr₁, st, dec)
    else
      let st₁ := { st with typeList := st.typeList ++ [id] }
      let (st₂, ok) := dispatchMessage ctx fr₁ id st₁
      decodeInner ctx fuel fr₁ st₂ (dec || ok)

/-- The chunk-copying outer loop of `Decode`
(RTCM3Decoder.cpp:1745-1848): append up to the free space of the
2048-byte `_Message` buffer and run the message loop, until the input
is exhausted or the buffer stays full. -/
def decodeOuter (ctx : Ctx) : Nat → List Nat → FrSt → DecSt → Bool → FrSt × DecSt × Bool
  | 0, _, fr, st, dec => (fr, st, dec)
  | fuel + 1, buffer, fr, st, dec =>
    if buffer.length = 0 ∨ 2048 ≤ fr.msg.length then (fr, st, dec)
    else
      let l := min (2048 - fr.msg.length) buffer.length
      let fr₁ := { fr with msg := fr.msg ++ buffer.take l }
      let (fr₂, st₂, dec₂) := decodeInner ctx 4096 fr₁ st dec
      decodeOuter ctx fuel (buffer.drop l) fr₂ st₂ dec₂

/-- `RTCM3Decoder::Decode` (RTCM3Decoder.cpp:1740-1850): `true` is
`success`, `false` is `failure`. -/
def Decode (ctx : Ctx) (buffer : List Nat) (fr : FrSt) (st : DecSt) :
    (FrSt × DecSt) × Bool :=
  let (fr', st', dec) := decodeOuter ctx (buffer.length + 1) buffer fr st false
  ((fr', st'), dec)

/-! ## Concrete inputs used by the claim theorems -/

/-- A fixed environment: every lock-time indicator is invalid
(`lti2sec = -1`), the SSR sub-decoder always fails, and the wall-clock
GPS week is 2200. -/
def defaultCtx : Ctx := ⟨fun _ _ => -1, fun _ _ _ => false, 2200⟩

/-- A 1010 frame whose single satellite carries the 6-bit satellite
number 0: the first three reads succeed and trigger the
`GLOFreq[sv-1]` store before the following 25-bit read runs past the
10-byte payload. -/
def fr1010sv0 : List Nat :=
  frameOf (packBits [(12,1010),(12,0),(27,1000),(1,1),(5,1),(4,0),(6,0),(1,0),(5,4)])

/-- A complete, validation-passing 1020 frame (payload 45 bytes) with
satellite number 0: almanac available, `M_NT = 5`, additional data
available, unit position/velocity magnitudes so the
`NormFrobenius() < 1` rejections do not fire. -/
def fr1020sv0 : List Nat :=
  frameOf (packBits [(12,1020),(6,0),(5,4),(1,0),(1,1),(2,0),(5,1),(6,0),(1,0),(1,0),(1,0),(7,10),
    (24,1048576),(27,2048),(5,0),(24,1048576),(27,0),(5,0),(24,1048576),(27,0),(5,0),
    (1,0),(11,0),(2,0),(1,0),(22,0),(5,0),(5,0),(1,0),(4,0),(11,5),(2,0),(1,1),
    (11,0),(32,0),(5,0),(22,0),(1,0)])

/-- A 1004 frame with one satellite whose 6-bit satellite field is 40
(the smallest SBAS encoding); its measurement fields are the invalid
sentinels. -/
def fr1004sbas : List Nat :=
  frameOf (packBits [(12,1004),(12,0),(30,1000),(1,1),(5,1),(4,0),
    (6,40),(1,0),(24,100),(20,0x80000),(7,0),(8,0),(8,0),
    (2,0),(14,0x2000),(20,0x80000),(7,0),(8,0)])

/-- A 1010 frame with one satellite: pseudorange field 100, valid
phase residual 0, 7-bit ambiguity field 1, CNR field 0. -/
def fr1010amb : List Nat :=
  frameOf (packBits [(12,1010),(12,0),(27,5000),(1,1),(5,1),(4,0),
    (6,1),(1,0),(5,7),(25,100),(20,0),(7,0),(7,1),(8,0)])

/-- An MSM4 (type 1074) frame whose satellite mask has 14 bits set and
signal mask 7 bits set — `14 · 7 = 98 > 96` cells — with an all-zero
cell mask and satellite data, 65 payload bytes. -/
def msm98 : List Nat :=
  frameOf (packBits [(12,1074),(12,0),(30,1000),(1,1),(18,0),
    (64, (2 ^ 14 - 1) <<< 50),(32, (2 ^ 7 - 1) <<< 25),(98,0),
    (112,0),(140,0)])

/-- A 1004 frame with zero satellites at epoch `tow`, sync flag 1. -/
def fr1004e (tow : Nat) : List Nat :=
  frameOf (packBits [(12,1004),(12,0),(30,tow),(1,1),(5,0),(4,0)])

/-- Two satellite-free 1004 frames at different epochs. -/
def c3buf : List Nat := fr1004e 1000 ++ fr1004e 2000

/-- C10 (code bug): the claim that every `GLOFreq` store uses an
in-bounds index `sv - 1`, including `sv = 0`, is false.  A 1010 frame
whose satellite field is 0 reaches the store with the `int` index
`0 - 1 = -1`, an out-of-bounds write to the shared 64-entry table
(`oobWrite` records it); a fully valid 1020 frame with satellite
number 0 passes every validation, performs the same out-of-bounds
store and still emits its ephemeris.  Arithmetically
`¬ 0 ≤ (0 : ℤ) - 1`, so the claimed bound fails exactly at `sv = 0`. -/
theorem glofreq_store_oob :
    (decodeRTCM3GLONASS defaultCtx ⟨fr1010sv0, 16⟩ {}).1.oobWrite = true ∧
    (decodeGLONASSEphemeris ⟨fr1020sv0, 51⟩ {}).1.oobWrite = true ∧
    (decodeGLONASSEphemeris ⟨fr1020sv0, 51⟩ {}).2 = true ∧
    ¬ (0 ≤ (0 : ℤ) - 1) := by
  refine ⟨by decide, by with_unfolding_all decide, by with_unfolding_all decide, by decide⟩

/-! ## Shared lemmas about the parse monad -/

/-- Application of a monadic bind in `P`. -/
theorem P_bind_apply {α β : Type} (x : P α) (f : α → P β) (pos : Nat) :
    (x >>= f) pos = match x pos with | none => none | some (a, p) => f a p := rfl

/-- Application of `pure` in `P`. -/
theorem P_pure_apply {α : Type} (a : α) (pos : Nat) :
    (pure a : P α) pos = some (a, pos) := rfl

/-- The 1046 (I/NAV) field reads need 502 bits but the size gate
admits payloads of 61 bytes = 488 bits, so the parse always runs past
the end (the first failing read is `BGD_1_5B` at bits 486-495). -/
theorem parseEphGal_inav_fail (rd : Rd) (h : rd.len = 67) :
    parseEphGal rd true 12 = none := by
  simp only [parseEphGal, getFloatSign, getFloat, getBitsFactor, h]
  repeat (simp only [P_bind_apply, P_pure_apply, getBits, skipBits, pfail, h]; norm_num)

/-- The 1045 (F/NAV) reads need 489 bits against a 60-byte = 480-bit
payload; the `BGD_1_5A` read at bits 476-485 fails. -/
theorem parseEphGal_fnav_fail (rd : Rd) (h : rd.len = 66) :
    parseEphGal rd false 12 = none := by
  simp only [parseEphGal, getFloatSign, getFloat, getBitsFactor, h]
  repeat (simp only [P_bind_apply, P_pure_apply, getBits, skipBits, pfail, h]; norm_num)

/-- `DecodeGalileoEphemeris` never emits: on the only sizes its gate
admits, the field reads run past the message end. -/
theorem decodeGalileo_never (rd : Rd) (st : DecSt) :
    decodeGalileoEphemeris rd st = (st, false) := by
  rcases hg : getBits rd 12 0 with _ | ⟨i, pos⟩
  · simp only [decodeGalileoEphemeris, hg]
  · have hpos : pos = 12 := by
      unfold getBits at hg
      split at hg
      · simp only [Option.some.injEq, Prod.mk.injEq] at hg
        omega
      · simp at hg
    subst hpos
    simp only [decodeGalileoEphemeris, hg]
    by_cases hgate : (i = 1046 ∧ rd.len - 6 = 61) ∨ (i = 1045 ∧ rd.len - 6 = 60)
    · rw [if_pos hgate]
      rcases hgate with ⟨hi, hl⟩ | ⟨hi, hl⟩
      · have h67 : rd.len = 67 := by omega
        subst hi
        rw [show (decide ((1046 : ℕ) = 1046)) = true from rfl,
          parseEphGal_inav_fail rd h67]
      · have h66 : rd.len = 66 := by omega
        subst hi
        rw [show (decide ((1045 : ℕ) = 1046)) = false from rfl,
          parseEphGal_fnav_fail rd h66]
    · rw [if_neg hgate]

/-- The framer state after the message loop does not depend on the
decoder state or the running `decoded` flag: a frame is consumed the
same way whether or not its decoder succeeded. -/
theorem decodeInner_frame_indep (ctx : Ctx) : ∀ (fuel : Nat) (fr : FrSt)
    (st st' : DecSt) (dec dec' : Bool),
    (decodeInner ctx fuel fr st dec).1 = (decodeInner ctx fuel fr st' dec').1 := by
  intro fuel
  induction fuel with
  | zero => intro fr st st' dec dec'; rfl
  | succ n ih =>
    intro fr st st' dec dec'
    simp only [decodeInner]
    by_cases hid : (getMessage fr).2 = 0
    · simp [hid]
    · simp [hid]
      exact ih _ _ _ _ _

/-- C4: every ephemeris decoder with a wrong-size frame returns
`false` and leaves the state — in particular the emitted-ephemeris
list — untouched (GPS 1019, QZSS 1044, IRNSS 1041: block size 67;
GLONASS 1020: 51; SBAS 1043: 35; BeiDou 1042: 70), so an emission
implies the documented size; the Galileo decoder (1045/1046, payload
gate 60/61) returns `false` on *every* frame — its field reads need
more bits than the admitted sizes contain, making its half of the
claim vacuously true — and the framer's consumption of a frame is
independent of the decoders' outcome. -/
theorem eph_size_gates :
    (∀ ctx rd st, rd.len ≠ 67 → decodeGPSEphemeris ctx rd st = (st, false)) ∧
    (∀ ctx rd st, rd.len ≠ 67 → decodeQZSSEphemeris ctx rd st = (st, false)) ∧
    (∀ ctx rd st, rd.len ≠ 67 → decodeIRNSSEphemeris ctx rd st = (st, false)) ∧
    (∀ rd st, rd.len ≠ 51 → decodeGLONASSEphemeris rd st = (st, false)) ∧
    (∀ rd st, rd.len ≠ 35 → decodeSBASEphemeris rd st = (st, false)) ∧
    (∀ rd st, rd.len ≠ 70 → decodeBDSEphemeris rd st = (st, false)) ∧
    (∀ rd st, decodeGalileoEphemeris rd st = (st, false)) ∧
    (∀ ctx fuel fr st st' dec dec',
      (decodeInner ctx fuel fr st dec).1 = (decodeInner ctx fuel fr st' dec').1) :=
  ⟨fun _ _ _ h => by unfold decodeGPSEphemeris; rw [if_neg h],
    fun _ _ _ h => by unfold decodeQZSSEphemeris; rw [if_neg h],
    fun _ _ _ h => by unfold decodeIRNSSEphemeris; rw [if_neg h],
    fun _ _ h => by unfold decodeGLONASSEphemeris; rw [if_neg h],
    fun _ _ h => by unfold decodeSBASEphemeris; rw [if_neg h],
    fun _ _ h => by unfold decodeBDSEphemeris; rw [if_neg h],
    fun rd st => decodeGalileo_never rd st,
    fun ctx fuel fr st st' dec dec' => decodeInner_frame_indep ctx fuel fr st st' dec dec'⟩

/-- Witness for `eph_size_gates` at concrete inputs. -/
theorem eph_size_gates_witness :
    decodeGPSEphemeris defaultCtx ⟨[], 0⟩ {} = ({}, false) ∧
    decodeQZSSEphemeris defaultCtx ⟨[], 0⟩ {} = ({}, false) ∧
    decodeIRNSSEphemeris defaultCtx ⟨[], 0⟩ {} = ({}, false) ∧
    decodeGLONASSEphemeris ⟨[], 0⟩ {} = ({}, false) ∧
    decodeSBASEphemeris ⟨[], 0⟩ {} = ({}, false) ∧
    decodeBDSEphemeris ⟨[], 0⟩ {} = ({}, false) ∧
    decodeGalileoEphemeris ⟨[], 0⟩ {} = ({}, false) ∧
    (decodeInner defaultCtx 3 {} {} false).1 =
      (decodeInner defaultCtx 3 {} { diags := 5 } true).1 :=
  ⟨eph_size_gates.1 defaultCtx ⟨[], 0⟩ {} (by decide),
    eph_size_gates.2.1 defaultCtx ⟨[], 0⟩ {} (by decide),
    eph_size_gates.2.2.1 defaultCtx ⟨[], 0⟩ {} (by decide),
    eph_size_gates.2.2.2.1 ⟨[], 0⟩ {} (by decide),
    eph_size_gates.2.2.2.2.1 ⟨[], 0⟩ {} (by decide),
    eph_size_gates.2.2.2.2.2.1 ⟨[], 0⟩ {} (by decide),
    eph_size_gates.2.2.2.2.2.2.1 ⟨[], 0⟩ {},
    eph_size_gates.2.2.2.2.2.2.2 defaultCtx 3 {} {} { diags := 5 } false true⟩

/-- C8 counterexample.  A 1004 frame whose 6-bit satellite field is 40
stages the SBAS identity `('S', 20)` — the code maps `sv ≥ 40` to
`sv - 20` — while the claim predicts `raw + 20 = 60`. -/
theorem sbas_prn_counterexample :
    (decodeRTCM3GPS defaultCtx ⟨fr1004sbas, 30⟩ {}).1.curList.map SatObs.prn =
      [('S', 20)] ∧
    (('S', 20) : Char × Nat) ≠ ('S', 40 + 20) := by
  refine ⟨by decide, by decide⟩

/-- C9 counterexample.  A 1010 frame with ambiguity field 1 stages the
L1 code `100 · 0.02 + 599584.916` — the GLONASS ambiguity field is 7
bits and one unit is `599584.916 m = 2·c/1000` — not the claimed
`100 · 0.02 + 299792.458`. -/
theorem legacy_ambiguity_counterexample :
    (decodeRTCM3GLONASS defaultCtx ⟨fr1010amb, 24⟩ {}).1.curList.map
        (fun s => s.obs.map FrqObs.code) = [[(599586.916 : ℚ)]] ∧
    (599586.916 : ℚ) = 100 * 0.02 + 1 * 599584.916 ∧
    (599586.916 : ℚ) ≠ 100 * 0.02 + 1 * 299792.458 := by
  have h4 : decodeRTCM3GLONASS defaultCtx ⟨fr1010amb, 24⟩ {} =
      ({ curTime := some (.tk 5000),
         curList := [{ prn := ('R', 1), time := .tk 5000, type := 1010,
                       obs := [gloL1Obs defaultCtx 1010 0 100 0 0 7 (some (1, 0))] }],
         gloFreq := (List.replicate 64 0).set 0 100 }, some false) := rfl
  refine ⟨?_, by norm_num, by norm_num⟩
  rw [h4]
  simp only [List.map_cons, List.map_nil]
  norm_num [gloL1Obs]

/-- C6 counterexample.  An MSM4 frame with `14 · 7 = 98 > 96` cells is
skipped — nothing is staged or emitted — but no diagnostic is
produced for it (`diags` stays 0); the claimed diagnostic does not
exist in the over-limit branch. -/
theorem msm_overlimit_counterexample :
    getBits ⟨msm98, 71⟩ 64 73 = some ((2 ^ 14 - 1) <<< 50, 137) ∧
    getBits ⟨msm98, 71⟩ 32 137 = some ((2 ^ 7 - 1) <<< 25, 169) ∧
    96 < popCount64 ((2 ^ 14 - 1) <<< 50) * popCount64 ((2 ^ 7 - 1) <<< 25) ∧
    (decodeRTCM3MSM defaultCtx ⟨msm98, 71⟩ {}).1.diags = 0 ∧
    (decodeRTCM3MSM defaultCtx ⟨msm98, 71⟩ {}).1.obsList = [] ∧
    (decodeRTCM3MSM defaultCtx ⟨msm98, 71⟩ {}).1.curList = [] ∧
    (decodeRTCM3MSM defaultCtx ⟨msm98, 71⟩ {}).2 = some false := by
  refine ⟨by decide, by decide, by decide, by decide, by decide, by decide, by decide⟩

/-- C6 (amended): for every MSM frame of subtype 4-7 whose satellite
and signal mask population counts multiply to more than 96, the signal
data is skipped: nothing is staged or emitted from the frame
(`_obsList ++ _CurrentObsList` is unchanged up to the ordinary
epoch-flush motion of elements, here stated as preservation of the
concatenation), no ephemeris is emitted — and, contrary to the
original claim, **no diagnostic is produced**: the over-limit branch
is silent (`diags` unchanged).  The decoder still runs to its final
`return decoded`. -/
theorem msm_overlimit_skip (ctx : Ctx) (rd : Rd) (st : DecSt)
    (type p₀ : Nat) (sys : Char) (t : TimeVal) (p₁ syncf p₂ : Nat)
    (satmask sigmask cellmask : Nat) (sat : MsmSat) (p₃ : Nat)
    (h₁ : msmTypeHeader rd 0 = some (type, p₀))
    (h₂ : msmSys type = some sys)
    (h₃ : msmTime rd sys p₀ = some (t, p₁))
    (h₄ : getBits rd 1 p₁ = some (syncf, p₂))
    (h₅ : type ≤ 1137 ∧ 4 ≤ type % 10 ∧ type % 10 ≤ 7)
    (h₆ : msmMasksSat rd (type % 10) p₂ = some ((satmask, sigmask, cellmask, sat), p₃))
    (h₇ : 96 < popCount64 satmask * popCount64 sigmask) :
    (decodeRTCM3MSM ctx rd st).1.obsList ++ (decodeRTCM3MSM ctx rd st).1.curList =
      st.obsList ++ st.curList ∧
    (decodeRTCM3MSM ctx rd st).1.diags = st.diags ∧
    (decodeRTCM3MSM ctx rd st).1.ephs = st.ephs ∧
    (decodeRTCM3MSM ctx rd st).2 ≠ none := by
  simp only [decodeRTCM3MSM, h₁, h₂, h₃, h₄, h₆]
  rw [if_pos h₅, if_neg (by omega)]
  by_cases he : epochChanged st.curTime t <;> by_cases hs : syncf = 0 <;>
    simp [he, hs, obsSyncFinish, finishObs, flushObs]

/-- Witness for `msm_overlimit_skip` on the concrete 98-cell MSM4
frame `msm98`. -/
theorem msm_overlimit_skip_witness :
    (decodeRTCM3MSM defaultCtx ⟨msm98, 71⟩ {}).1.obsList ++
        (decodeRTCM3MSM defaultCtx ⟨msm98, 71⟩ {}).1.curList =
      ({} : DecSt).obsList ++ ({} : DecSt).curList ∧
    (decodeRTCM3MSM defaultCtx ⟨msm98, 71⟩ {}).1.diags = ({} : DecSt).diags ∧
    (decodeRTCM3MSM defaultCtx ⟨msm98, 71⟩ {}).1.ephs = ({} : DecSt).ephs ∧
    (decodeRTCM3MSM defaultCtx ⟨msm98, 71⟩ {}).2 ≠ none :=
  msm_overlimit_skip defaultCtx ⟨msm98, 71⟩ {} 1074 24 'G' (.gps 1000) 54 1 55
    ((2 ^ 14 - 1) <<< 50) ((2 ^ 7 - 1) <<< 25) 0
    ⟨List.replicate 14 0, [], (List.replicate 14 0).reverse.map (fun v => (v : ℚ) * (1 / 1024)), []⟩
    519 (by decide) (by decide) (by decide) (by decide) (by decide) rfl (by decide)

/-- C8 (amended): the SBAS satellite-number encodings actually used.
The legacy GPS-family observation decoder maps a 6-bit satellite field
`sv ≥ 40` to SBAS number `sv - 20`; the SBAS ephemeris decoder (1043)
maps its raw 6-bit number to `raw + 20`; the MSM cell walk maps the
satellite at mask cursor `i` — whose 1-based mask position, the raw
satellite number, is `64 - i` — to `20 - 1 + 64 - i`, i.e. raw `+ 19`.
The three paths use three different offsets; only 1043 adds 20. -/
theorem sbas_prn_rule :
    (∀ sv, 40 ≤ sv → gpsObsPrn sv = ('S', sv - 20)) ∧
    (∀ i, sbasEphPrn i = ('S', 20 + i)) ∧
    (∀ i, msmPrn 'S' i = ('S', 20 - 1 + 64 - i)) := by
  refine ⟨fun sv h => ?_, fun i => rfl, fun i => ?_⟩
  · unfold gpsObsPrn
    rw [if_neg (by omega)]
  · unfold msmPrn
    rw [if_pos rfl]

/-- Witness for `sbas_prn_rule` at concrete inputs. -/
theorem sbas_prn_rule_witness :
    gpsObsPrn 40 = ('S', 20) ∧ sbasEphPrn 0 = ('S', 20) ∧ msmPrn 'S' 63 = ('S', 20) :=
  ⟨sbas_prn_rule.1 40 (by decide), sbas_prn_rule.2.1 0, sbas_prn_rule.2.2 63⟩

/-- C9 (amended): the extended legacy observation fields.  A nonzero
GPS ambiguity field (8 bits, read in `gpsSatBody`) adds
`amb · 299792.458 m` to the L1 code and that amount over the L1
wavelength to the phase; a nonzero GLONASS ambiguity field (7 bits,
read in `gloSatBody`) adds `amb · 599584.916 m` — two light
milliseconds, `2·c/1000`, not one — and that amount over the
slot-dependent L1 wavelength to the phase; for both systems a nonzero
CNR field yields `snr = raw · 0.25` with the valid flag set, and a raw
CNR of 0 leaves the flag unset. -/
theorem legacy_ambiguity_cnr :
    (∀ ctx type code l1range iraw lti amb cnr, amb ≠ 0 →
      (gpsL1Obs ctx type code l1range iraw lti (some (amb, cnr))).code =
        (gpsL1Obs ctx type code l1range iraw lti none).code + (amb : ℚ) * 299792.458 ∧
      (gpsL1Obs ctx type code l1range iraw lti (some (amb, cnr))).phase =
        (gpsL1Obs ctx type code l1range iraw lti none).phase +
          (amb : ℚ) * 299792.458 / GPS_WAVELENGTH_L1) ∧
    (∀ ctx type code l1range iraw lti freq amb cnr, amb ≠ 0 →
      (gloL1Obs ctx type code l1range iraw lti freq (some (amb, cnr))).code =
        (gloL1Obs ctx type code l1range iraw lti freq none).code + (amb : ℚ) * 599584.916 ∧
      (gloL1Obs ctx type code l1range iraw lti freq (some (amb, cnr))).phase =
        (gloL1Obs ctx type code l1range iraw lti freq none).phase +
          (amb : ℚ) * 599584.916 / GLO_WAVELENGTH_L1 ((freq : ℤ) - 7)) ∧
    (599584.916 : ℚ) = 2 * LIGHTSPEED / 1000 ∧
    (∀ ctx type code l1range iraw lti amb cnr, cnr ≠ 0 →
      (gpsL1Obs ctx type code l1range iraw lti (some (amb, cnr))).snr = (cnr : ℚ) * 0.25 ∧
      (gpsL1Obs ctx type code l1range iraw lti (some (amb, cnr))).snrValid = true) ∧
    (∀ ctx type code l1range iraw lti amb,
      (gpsL1Obs ctx type code l1range iraw lti (some (amb, 0))).snrValid = false) ∧
    (∀ ctx type code l1range iraw lti freq amb cnr, cnr ≠ 0 →
      (gloL1Obs ctx type code l1range iraw lti freq (some (amb, cnr))).snr = (cnr : ℚ) * 0.25 ∧
      (gloL1Obs ctx type code l1range iraw lti freq (some (amb, cnr))).snrValid = true) ∧
    (∀ ctx type code l1range iraw lti freq amb,
      (gloL1Obs ctx type code l1range iraw lti freq (some (amb, 0))).snrValid = false) := by
  refine ⟨?_, ?_, by norm_num [LIGHTSPEED], ?_, ?_, ?_, ?_⟩
  · intro ctx type code l1range iraw lti amb cnr h
    by_cases hir : iraw = 0x80000 <;> by_cases hc : cnr = 0 <;>
      constructor <;> simp [gpsL1Obs, h, hir, hc]
  · intro ctx type code l1range iraw lti freq amb cnr h
    by_cases hir : iraw = 0x80000 <;> by_cases hc : cnr = 0 <;>
      constructor <;> simp [gloL1Obs, h, hir, hc]
  · intro ctx type code l1range iraw lti amb cnr h
    by_cases hir : iraw = 0x80000 <;> by_cases ha : amb = 0 <;>
      constructor <;> simp [gpsL1Obs, h, hir, ha]
  · intro ctx type code l1range iraw lti amb
    by_cases hir : iraw = 0x80000 <;> by_cases ha : amb = 0 <;> simp [gpsL1Obs, hir, ha]
  · intro ctx type code l1range iraw lti freq amb cnr h
    by_cases hir : iraw = 0x80000 <;> by_cases ha : amb = 0 <;>
      constructor <;> simp [gloL1Obs, h, hir, ha]
  · intro ctx type code l1range iraw lti freq amb
    by_cases hir : iraw = 0x80000 <;> by_cases ha : amb = 0 <;> simp [gloL1Obs, hir, ha]

/-- Witness for `legacy_ambiguity_cnr` at concrete inputs. -/
theorem legacy_ambiguity_cnr_witness :
    ((gpsL1Obs defaultCtx 1002 0 100 0 0 (some (2, 3))).code =
        (gpsL1Obs defaultCtx 1002 0 100 0 0 none).code + ((2 : ℕ) : ℚ) * 299792.458 ∧
      (gpsL1Obs defaultCtx 1002 0 100 0 0 (some (2, 3))).phase =
        (gpsL1Obs defaultCtx 1002 0 100 0 0 none).phase +
          ((2 : ℕ) : ℚ) * 299792.458 / GPS_WAVELENGTH_L1) ∧
    ((gloL1Obs defaultCtx 1010 0 100 0 0 7 (some (2, 3))).code =
        (gloL1Obs defaultCtx 1010 0 100 0 0 7 none).code + ((2 : ℕ) : ℚ) * 599584.916 ∧
      (gloL1Obs defaultCtx 1010 0 100 0 0 7 (some (2, 3))).phase =
        (gloL1Obs defaultCtx 1010 0 100 0 0 7 none).phase +
          ((2 : ℕ) : ℚ) * 599584.916 / GLO_WAVELENGTH_L1 (((7 : ℕ) : ℤ) - 7)) ∧
    ((gpsL1Obs defaultCtx 1002 0 100 0 0 (some (2, 3))).snr = ((3 : ℕ) : ℚ) * 0.25 ∧
      (gpsL1Obs defaultCtx 1002 0 100 0 0 (some (2, 3))).snrValid = true) ∧
    (gpsL1Obs defaultCtx 1002 0 100 0 0 (some (2, 0))).snrValid = false ∧
    ((gloL1Obs defaultCtx 1010 0 100 0 0 7 (some (2, 3))).snr = ((3 : ℕ) : ℚ) * 0.25 ∧
      (gloL1Obs defaultCtx 1010 0 100 0 0 7 (some (2, 3))).snrValid = true) ∧
    (gloL1Obs defaultCtx 1010 0 100 0 0 7 (some (2, 0))).snrValid = false :=
  ⟨legacy_ambiguity_cnr.1 defaultCtx 1002 0 100 0 0 2 3 (by decide),
    legacy_ambiguity_cnr.2.1 defaultCtx 1010 0 100 0 0 7 2 3 (by decide),
    legacy_ambiguity_cnr.2.2.2.1 defaultCtx 1002 0 100 0 0 2 3 (by decide),
    legacy_ambiguity_cnr.2.2.2.2.1 defaultCtx 1002 0 100 0 0 2,
    legacy_ambiguity_cnr.2.2.2.2.2.1 defaultCtx 1010 0 100 0 0 7 2 3 (by decide),
    legacy_ambiguity_cnr.2.2.2.2.2.2 defaultCtx 1010 0 100 0 0 7 2⟩

/-- C5: MSM GLONASS wavelength resolution.  (1) The wavelength
formulas are `c / (GLO_FREQU_L{1,2}_BASE + slot · STEP)`.  (2) When
MSM5/7 extended info is available (`ext < 14`) the cell walk stores
`100 + ext - 7` into the shared table and resolves the L1/L2
placeholder wavelengths through slot `ext - 7`.  (3) Otherwise a
nonzero table entry `k` (as recorded by the most recent 1012/1020/MSM
update) resolves the placeholders through slot `k - 100`, leaving the
table unchanged.  (4) With no extended info and a zero table entry, a
placeholder-wavelength (L1/L2-band) GLONASS signal is dropped: the
cell produces no observation.  (5) A resolved cell emits exactly the
`t_frqObs` built from the resolved wavelength. -/
theorem msm_glo_wavelength :
    (∀ (a : ℤ), GLO_WAVELENGTH_L1 a =
        LIGHTSPEED / (GLO_FREQU_L1_BASE + a * GLO_FREQU_L1_STEP) ∧
      GLO_WAVELENGTH_L2 a = LIGHTSPEED / (GLO_FREQU_L2_BASE + a * GLO_FREQU_L2_STEP)) ∧
    (∀ tbl ext satIdx cd0, ext < 14 →
      (msmGloCodeData tbl ext satIdx cd0).2 = tbl.set satIdx (100 + (ext : ℤ) - 7) ∧
      (cd0.wl = 0 →
        (msmGloCodeData tbl ext satIdx cd0).1.wl = GLO_WAVELENGTH_L1 ((ext : ℤ) - 7)) ∧
      (cd0.wl = 1 →
        (msmGloCodeData tbl ext satIdx cd0).1.wl = GLO_WAVELENGTH_L2 ((ext : ℤ) - 7))) ∧
    (∀ tbl ext satIdx cd0, 14 ≤ ext → tbl.getD satIdx 0 ≠ 0 →
      (msmGloCodeData tbl ext satIdx cd0).2 = tbl ∧
      (cd0.wl = 0 → (msmGloCodeData tbl ext satIdx cd0).1.wl =
        GLO_WAVELENGTH_L1 (tbl.getD satIdx 0 - 100)) ∧
      (cd0.wl = 1 → (msmGloCodeData tbl ext satIdx cd0).1.wl =
        GLO_WAVELENGTH_L2 (tbl.getD satIdx 0 - 100))) ∧
    (∀ ctx type sat tbl nsat i jv sig count, 14 ≤ extsatAt sat nsat →
      tbl.getD (64 - i - 1) 0 = 0 → (codeDataOf 'R' (32 - jv - 1)).wl ≤ 1 →
      msmCellObs ctx 'R' type sat tbl nsat i jv sig count = (none, tbl)) ∧
    (∀ ctx type sat tbl nsat i jv sig count rnx wl,
      (msmGloCodeData tbl (extsatAt sat nsat) (64 - i - 1)
          (codeDataOf 'R' (32 - jv - 1))).1 = ⟨wl, some rnx⟩ →
      msmCellObs ctx 'R' type sat tbl nsat i jv sig count =
        (some (msmFrqObs ctx type wl rnx (cellQ sig.psr count) (cellQ sig.cp count)
          (cellN sig.ll count) (cellQ sig.cnr count) (cellQ sig.dop count)
          (sat.rrmod.getD nsat 0) (sat.rrint.getD nsat 0) (sat.rdop.getD nsat 0)),
         (msmGloCodeData tbl (extsatAt sat nsat) (64 - i - 1)
           (codeDataOf 'R' (32 - jv - 1))).2)) := by
  refine ⟨fun a => ⟨rfl, rfl⟩, ?_, ?_, ?_, ?_⟩
  · intro tbl ext satIdx cd0 h
    have hk : (100 : ℤ) + (ext : ℤ) - 7 ≠ 0 := by omega
    have harg : (100 : ℤ) + (ext : ℤ) - 7 - 100 = (ext : ℤ) - 7 := by omega
    unfold msmGloCodeData
    simp only [if_pos h, if_pos hk, harg]
    refine ⟨?_, fun h0 => ?_, fun h1 => ?_⟩
    · by_cases h0 : cd0.wl = 0 <;> by_cases h1 : cd0.wl = 1 <;> simp [h0, h1]
    · simp [h0]
    · by_cases h0 : cd0.wl = 0
      · rw [h0] at h1; exact absurd h1.symm (by norm_num)
      · simp [h0, h1]
  · intro tbl ext satIdx cd0 h14 hk
    have hn : ¬ ext < 14 := by omega
    unfold msmGloCodeData
    simp only [if_neg hn, if_pos hk]
    refine ⟨?_, fun h0 => ?_, fun h1 => ?_⟩
    · by_cases h0 : cd0.wl = 0 <;> by_cases h1 : cd0.wl = 1 <;> simp [h0, h1]
    · simp [h0]
    · by_cases h0 : cd0.wl = 0
      · rw [h0] at h1; exact absurd h1.symm (by norm_num)
      · simp [h0, h1]
  · intro ctx type sat tbl nsat i jv sig count h14 hz hle
    have hn : ¬ extsatAt sat nsat < 14 := by omega
    have hz2 : tbl[64 - i - 1]?.getD 0 = 0 := by simpa [List.getD] using hz
    simp [msmCellObs, msmGloCodeData, hn, hz2, hle]
  · intro ctx type sat tbl nsat i jv sig count rnx wl hcd
    rcases hm : msmGloCodeData tbl (extsatAt sat nsat) (64 - i - 1)
        (codeDataOf 'R' (32 - jv - 1)) with ⟨cd, tbl2⟩
    rw [hm] at hcd
    simp only at hcd
    simp only [msmCellObs, reduceIte, hm, hcd]

/-- Witness for `msm_glo_wavelength` at concrete inputs: slot 3 via
formula; ext-info 5 stores and resolves; table entry 103 resolves L2;
an unknown slot drops the `"1C"` cell; table entry 103 emits the L1
observation with wavelength of slot 3. -/
theorem msm_glo_wavelength_witness :
    (GLO_WAVELENGTH_L1 3 = LIGHTSPEED / (GLO_FREQU_L1_BASE + 3 * GLO_FREQU_L1_STEP) ∧
      GLO_WAVELENGTH_L2 3 = LIGHTSPEED / (GLO_FREQU_L2_BASE + 3 * GLO_FREQU_L2_STEP)) ∧
    ((msmGloCodeData (List.replicate 64 0) 5 0 ⟨0, some "1C"⟩).2 =
        (List.replicate 64 0).set 0 (100 + ((5 : ℕ) : ℤ) - 7) ∧
      ((⟨0, some "1C"⟩ : CodeData).wl = 0 →
        (msmGloCodeData (List.replicate 64 0) 5 0 ⟨0, some "1C"⟩).1.wl =
          GLO_WAVELENGTH_L1 (((5 : ℕ) : ℤ) - 7)) ∧
      ((⟨0, some "1C"⟩ : CodeData).wl = 1 →
        (msmGloCodeData (List.replicate 64 0) 5 0 ⟨0, some "1C"⟩).1.wl =
          GLO_WAVELENGTH_L2 (((5 : ℕ) : ℤ) - 7))) ∧
    ((msmGloCodeData ((List.replicate 64 0).set 0 103) 15 0 ⟨1, some "2C"⟩).2 =
        (List.replicate 64 0).set 0 103 ∧
      ((⟨1, some "2C"⟩ : CodeData).wl = 0 →
        (msmGloCodeData ((List.replicate 64 0).set 0 103) 15 0 ⟨1, some "2C"⟩).1.wl =
          GLO_WAVELENGTH_L1 (((List.replicate 64 0).set 0 103).getD 0 0 - 100)) ∧
      ((⟨1, some "2C"⟩ : CodeData).wl = 1 →
        (msmGloCodeData ((List.replicate 64 0).set 0 103) 15 0 ⟨1, some "2C"⟩).1.wl =
          GLO_WAVELENGTH_L2 (((List.replicate 64 0).set 0 103).getD 0 0 - 100))) ∧
    msmCellObs defaultCtx 'R' 1084 ⟨[], [], [], []⟩ (List.replicate 64 0) 0 63 30
        ⟨[], [], [], [], []⟩ 0 = (none, List.replicate 64 0) ∧
    msmCellObs defaultCtx 'R' 1084 ⟨[], [], [], []⟩ ((List.replicate 64 0).set 0 103) 0 63 30
        ⟨[], [], [], [], []⟩ 0 =
      (some (msmFrqObs defaultCtx 1084 (GLO_WAVELENGTH_L1 (103 - 100)) "1C"
        (cellQ (⟨[], [], [], [], []⟩ : MsmSig).psr 0) (cellQ (⟨[], [], [], [], []⟩ : MsmSig).cp 0)
        (cellN (⟨[], [], [], [], []⟩ : MsmSig).ll 0) (cellQ (⟨[], [], [], [], []⟩ : MsmSig).cnr 0)
        (cellQ (⟨[], [], [], [], []⟩ : MsmSig).dop 0)
        ((⟨[], [], [], []⟩ : MsmSat).rrmod.getD 0 0) ((⟨[], [], [], []⟩ : MsmSat).rrint.getD 0 0)
        ((⟨[], [], [], []⟩ : MsmSat).rdop.getD 0 0)),
       (msmGloCodeData ((List.replicate 64 0).set 0 103)
         (extsatAt ⟨[], [], [], []⟩ 0) (64 - 63 - 1) (codeDataOf 'R' (32 - 30 - 1))).2) :=
  ⟨msm_glo_wavelength.1 3,
    msm_glo_wavelength.2.1 (List.replicate 64 0) 5 0 ⟨0, some "1C"⟩ (by decide),
    msm_glo_wavelength.2.2.1 ((List.replicate 64 0).set 0 103) 15 0 ⟨1, some "2C"⟩
      (by decide) (by decide),
    msm_glo_wavelength.2.2.2.1 defaultCtx 1084 ⟨[], [], [], []⟩ (List.replicate 64 0) 0 63 30
      ⟨[], [], [], [], []⟩ 0 (by decide) (by decide) (by norm_num [codeDataOf, gloMSM]),
    msm_glo_wavelength.2.2.2.2 defaultCtx 1084 ⟨[], [], [], []⟩ ((List.replicate 64 0).set 0 103)
      0 63 30 ⟨[], [], [], [], []⟩ 0 "1C" (GLO_WAVELENGTH_L1 (103 - 100)) rfl⟩

/-- C3 counterexample.  Decoding two satellite-free 1004 frames at
different epochs returns success — the second frame's epoch change
flushes an *empty* accumulator and sets `decoded = true` — although no
observation epoch was produced (`_obsList` stays empty) and no
ephemeris was emitted. -/
theorem decode_result_counterexample :
    (Decode defaultCtx c3buf {} {}).2 = true ∧
    (Decode defaultCtx c3buf {} {}).1.2.obsList = [] ∧
    (Decode defaultCtx c3buf {} {}).1.2.ephs.length = 0 := by
  refine ⟨by decide, by decide, by decide⟩

end RTCM3
